import Mathlib

/-!
Verification of the Monte Carlo membrane barostat controller
(`MonteCarloMembraneBarostatImpl`, file src/unnamed/part_000) and of the
Reference Drude kernel factory
(src/plugins/drude/platforms/reference/src/ReferenceDrudeKernelFactory.cpp).

The C++ double arithmetic is embedded as exact rational arithmetic (ℚ).
The external collaborators that the controller only calls through narrow
interfaces — the SFMT random generator, the potential-energy evaluation,
and the cmath transcendental functions exp/log/sqrt — are abstracted as
oracle parameters (`Env`, `MathOracle`): the controller's control flow is
translated literally from the source, and theorems quantify over the
oracles.  Counterexample traces instantiate the oracles with concrete
functions whose values lie on the same side of every comparison the code
performs as the true real-valued functions do, so every branch taken in
the model matches the branch the C++ code would take.
-/

/-! ## Unit constants (src/unnamed/part_000, lines 45-48) -/

def BOLTZMANN : ℚ := 1.380658e-23
def AVOGADRO : ℚ := 6.0221367e23
def RGAS : ℚ := BOLTZMANN * AVOGADRO
def BOLTZ : ℚ := RGAS / 1000

/-! ## Vectors and per-axis arrays -/

/-- OpenMM `Vec3` restricted to what the barostat uses: three rational
components with componentwise access and scalar multiplication. -/
structure Vec3 where
  x : ℚ
  y : ℚ
  z : ℚ
deriving DecidableEq, Repr

def Vec3.get (v : Vec3) (i : Fin 3) : ℚ :=
  if i = 0 then v.x else if i = 1 then v.y else v.z

def Vec3.setAt (v : Vec3) (i : Fin 3) (q : ℚ) : Vec3 :=
  if i = 0 then ⟨q, v.y, v.z⟩ else if i = 1 then ⟨v.x, q, v.z⟩ else ⟨v.x, v.y, q⟩

/-- `box[i] * lengthScale[i]`: scalar times vector. -/
def Vec3.smul (c : ℚ) (v : Vec3) : Vec3 := ⟨c * v.x, c * v.y, c * v.z⟩

/-- A C array of length 3 indexed by axis, as used for `volumeScale`,
`numAttempted` and `numAccepted`. -/
structure Axes (α : Type) where
  a0 : α
  a1 : α
  a2 : α
deriving DecidableEq, Repr

def Axes.get {α : Type} (v : Axes α) (i : Fin 3) : α :=
  if i = 0 then v.a0 else if i = 1 then v.a1 else v.a2

def Axes.setAt {α : Type} (v : Axes α) (i : Fin 3) (q : α) : Axes α :=
  if i = 0 then ⟨q, v.a1, v.a2⟩ else if i = 1 then ⟨v.a0, q, v.a2⟩ else ⟨v.a0, v.a1, q⟩

/-! ## Configuration (`MonteCarloMembraneBarostat` owner, read each tick) -/

inductive XYMode where
  | XYIsotropic
  | XYAnisotropic
deriving DecidableEq, Repr

inductive ZMode where
  | ZFree
  | ZFixed
  | ConstantVolume
deriving DecidableEq, Repr

/-- The owner configuration the controller reads through `owner.get...()`
each tick: temperature, control interval (frequency) and the two
axis-coupling modes. -/
structure BarostatOwner where
  temperature : ℚ
  frequency : ℕ
  xyMode : XYMode
  zMode : ZMode
deriving DecidableEq, Repr

/-! ## The simulation context (narrow interface the controller consumes) -/

/-- The part of `ContextImpl` the controller touches: the periodic box
vectors, the particle coordinates, and the two context parameters
(`Pressure()` and `SurfaceTension()`). -/
structure Context where
  box0 : Vec3
  box1 : Vec3
  box2 : Vec3
  positions : List Vec3
  pressureParam : ℚ
  surfaceTensionParam : ℚ
deriving DecidableEq, Repr

/-- `box[0][0]*box[1][1]*box[2][2]` (line 58 / line 101). -/
def Context.volume (ctx : Context) : ℚ := ctx.box0.x * ctx.box1.y * ctx.box2.z

/-! ## External oracles -/

/-- The cmath functions the controller calls.  They are opaque external
collaborators; theorems hold for arbitrary instantiations, and concrete
traces instantiate them consistently with the real functions at every
point where the code consults them. -/
structure MathOracle where
  exp : ℚ → ℚ
  log : ℚ → ℚ
  sqrt : ℚ → ℚ

/-- The environment of one `updateContextState` call: the uniform-variate
source (`genrand_real2` outputs, indexed by draw order), the potential
energy evaluation (a function of the context state), the molecule count,
and the math oracle. -/
structure Env where
  stream : ℕ → ℚ
  energy : Context → ℚ
  molecules : ℕ
  math : MathOracle

/-! ## Controller state -/

/-- The controller's own mutable state: per-axis move amplitudes and
trial counters, the step counter (constructor, line 50) and the cursor
into the random stream (the owned generator state). -/
structure BarostatState where
  volumeScale : Axes ℚ
  numAttempted : Axes ℕ
  numAccepted : Axes ℕ
  step : ℕ
  rng : ℕ
deriving DecidableEq, Repr

/-- `MonteCarloMembraneBarostatImpl::initialize` (lines 53-68): each
axis's move amplitude becomes 1% of the current box volume, the counters
are zeroed; the step counter is 0 from the constructor and the random
generator is freshly seeded (cursor 0). -/
def initState (ctx : Context) : BarostatState :=
  { volumeScale := ⟨0.01 * ctx.volume, 0.01 * ctx.volume, 0.01 * ctx.volume⟩
    numAttempted := ⟨0, 0, 0⟩
    numAccepted := ⟨0, 0, 0⟩
    step := 0
    rng := 0 }

/-! ## The platform kernel (spec-modelled collaborator) -/

/-- The pre-trial coordinates the platform kernel saved. -/
structure KernelState where
  saved : List Vec3
deriving DecidableEq, Repr

/-- Observation record of the kernel invocations a call performed. -/
inductive KernelCall where
  | scaleCoordinatesCall (sx sy sz : ℚ)
  | restoreCoordinatesCall
deriving DecidableEq, Repr

/-- Modelled from the spec: the platform-specific
`ApplyMonteCarloBarostatKernel::scaleCoordinates(context, sx, sy, sz)` is
not among the sources here; per spec §6 it scales all particle
coordinates by the per-axis factors (saving the pre-trial coordinates so
that `restoreCoordinates` can undo the scaling), in place and completely. -/
def scaleCoordinates (ctx : Context) (_ks : KernelState) (ls : Vec3) :
    Context × KernelState :=
  ({ ctx with positions := ctx.positions.map fun p => ⟨p.x * ls.x, p.y * ls.y, p.z * ls.z⟩ },
   { saved := ctx.positions })

/-- Modelled from the spec: the platform-specific
`ApplyMonteCarloBarostatKernel::restoreCoordinates(context)` is not among
the sources here; per spec §6 and §4.2 it restores the particle
coordinates saved by the last `scaleCoordinates`, undoing the scaling. -/
def restoreCoordinates (ctx : Context) (ks : KernelState) :
    Context × KernelState :=
  ({ ctx with positions := ks.saved }, ks)

/-! ## Random axis selection (lines 82-95) -/

/-- One iteration of the `while (true)` axis-selection loop body: given
the drawn variate, either an axis is selected or the loop re-draws. -/
def axisOfDraw (owner : BarostatOwner) (u : ℚ) : Option (Fin 3) :=
  let rnd := u * 3
  if rnd < 1 then some 0
  else if rnd < 2 then
    some (if owner.xyMode = XYMode.XYIsotropic then 0 else 1)
  else if owner.zMode = ZMode.ZFree then some 2
  else none

/-- The `while (true)` rejection-sampling loop, with explicit fuel: it
consumes draws from the stream starting at cursor `c` until a draw
selects an axis, returning the axis and the cursor after the last
consumed draw, or `none` when `fuel` draws were all invalid. -/
def selectAxis (owner : BarostatOwner) (stream : ℕ → ℚ) :
    ℕ → ℕ → Option (Fin 3 × ℕ)
  | 0, _ => none
  | fuel + 1, c =>
    match axisOfDraw owner (stream c) with
    | some a => some (a, c + 1)
    | none => selectAxis owner stream fuel (c + 1)

/-- The axis-selection loop terminates on the given stream from cursor
`c` precisely when some draw at or after `c` selects an axis. -/
def axisLoopTerminates (owner : BarostatOwner) (stream : ℕ → ℚ) (c : ℕ) : Prop :=
  ∃ n, c ≤ n ∧ (axisOfDraw owner (stream n)).isSome

/-! ## Adaptive tuning (lines 133-144) -/

/-- Lines 133-144: the per-axis tuning step, applied after the counters
were updated for the trial; `volume` is the controller's local current
volume variable at that point.  Returns the new
(volumeScale, numAttempted, numAccepted) for the trial axis. -/
def tuneStep (volumeScale : ℚ) (numAttempted numAccepted : ℕ) (volume : ℚ) :
    ℚ × ℕ × ℕ :=
  if 10 ≤ numAttempted then
    if (numAccepted : ℚ) < 0.25 * (numAttempted : ℚ) then
      (volumeScale / 1.1, 0, 0)
    else if 0.75 * (numAttempted : ℚ) < (numAccepted : ℚ) then
      (min (volumeScale * 1.1) (volume * 0.3), 0, 0)
    else
      (volumeScale, numAttempted, numAccepted)
  else
    (volumeScale, numAttempted, numAccepted)

/-- Line 123: `if (w > 0 && genrand_real2(random) > std::exp(-w/kT)))`.
The short-circuiting `&&` draws the acceptance variate only when
`w > 0`.  Returns (rejected?, the drawn variate if any, next cursor). -/
def trialOutcome (math : MathOracle) (stream : ℕ → ℚ) (kT w : ℚ) (c1 : ℕ) :
    Bool × Option ℚ × ℕ :=
  if 0 < w then
    (decide (math.exp (-w / kT) < stream c1), some (stream c1), c1 + 1)
  else
    (false, none, c1)

/-! ## One Metropolis trial (lines 99-144) -/

/-- Observations of one executed trial, recorded alongside the state for
the statements below: the chosen axis, the (post-`ConstantVolume`
override) ΔV and new volume, the per-axis length scales, the area
change, the Metropolis weight `w`, the acceptance variate (drawn only
when `w > 0`), the outcome, and the value of the controller's local
`volume` variable at the tuning step. -/
structure TrialInfo where
  axis : Fin 3
  deltaVolume : ℚ
  newVolume : ℚ
  lengthScale : Vec3
  deltaArea : ℚ
  w : ℚ
  acceptDraw : Option ℚ
  accepted : Bool
  tuningVolume : ℚ
deriving DecidableEq, Repr

/-- The complete outcome of one `updateContextState` call. -/
structure UpdateResult where
  ctx : Context
  ks : KernelState
  state : BarostatState
  calls : List KernelCall
  info : Option TrialInfo
deriving DecidableEq, Repr

/-- Lines 133-145 tail of a trial: increment the counters for the trial
axis (`numAccepted` only on acceptance, lines 130-132), run the tuning
step, and assemble the result. -/
def finishTrial (ctx2 : Context) (ks2 : KernelState) (s : BarostatState)
    (axis : Fin 3) (accepted : Bool) (calls : List KernelCall) (cursor : ℕ)
    (volumeVar : ℚ) (info : TrialInfo) : UpdateResult :=
  let att1 := s.numAttempted.get axis + 1
  let acc1 := s.numAccepted.get axis + (if accepted then 1 else 0)
  let t := tuneStep (s.volumeScale.get axis) att1 acc1 volumeVar
  let s' : BarostatState :=
    { volumeScale := s.volumeScale.setAt axis t.1
      numAttempted := s.numAttempted.setAt axis t.2.1
      numAccepted := s.numAccepted.setAt axis t.2.2
      step := s.step
      rng := cursor }
  { ctx := ctx2, ks := ks2, state := s', calls := calls, info := some info }

/-- Lines 123-144: the tail of a trial, once the Metropolis weight `w`
has been computed.  `ctx` is the pre-trial context (whose box vectors are
restored on rejection), `ctx1`/`ks1` the scaled context and the kernel
state holding the saved coordinates, and `c1` the cursor of the pending
acceptance draw.  On rejection (lines 124-128) the kernel's
`restoreCoordinates` undoes the scaling, the box vectors are reset to
their pre-trial values and the local volume variable is overwritten with
the attempted new volume; on acceptance (lines 130-131) the scaled state
is kept and the local volume variable keeps its pre-trial value. -/
def trialTail (math : MathOracle) (stream : ℕ → ℚ) (kT : ℚ)
    (ctx ctx1 : Context) (ks1 : KernelState) (s : BarostatState) (axis : Fin 3)
    (lengthScale : Vec3) (deltaArea volume newVolume deltaVolume w : ℚ)
    (c1 : ℕ) : UpdateResult :=
  let dec := trialOutcome math stream kT w c1
  let rejectedTrial := dec.1
  let acceptDraw := dec.2.1
  let c2 := dec.2.2
  let scaleCall := KernelCall.scaleCoordinatesCall lengthScale.x lengthScale.y lengthScale.z
  let after : Context × KernelState × List KernelCall × ℚ :=
    if rejectedTrial then
      let restored := restoreCoordinates ctx1 ks1
      ({ restored.1 with box0 := ctx.box0, box1 := ctx.box1, box2 := ctx.box2 }, restored.2,
       [scaleCall, KernelCall.restoreCoordinatesCall], newVolume)
    else
      (ctx1, ks1, [scaleCall], volume)
  finishTrial after.1 after.2.1 s axis (!rejectedTrial) after.2.2.1 c2 after.2.2.2
    { axis := axis, deltaVolume := deltaVolume, newVolume := newVolume
      lengthScale := lengthScale, deltaArea := deltaArea, w := w
      acceptDraw := acceptDraw, accepted := !rejectedTrial, tuningVolume := after.2.2.2 }

/-- Lines 99-144 of `MonteCarloMembraneBarostatImpl::updateContextState`:
the Metropolis trial executed once an axis has been selected.  `s.rng`
points at the ΔV draw; `pressure`, `tension` and `initialEnergy` were
computed before axis selection (lines 77-79). -/
def doTrial (owner : BarostatOwner) (env : Env) (ctx : Context)
    (ks : KernelState) (s : BarostatState) (axis : Fin 3)
    (pressure tension initialEnergy : ℚ) : UpdateResult :=
  -- lines 99-101: read the box and its volume
  let box0 := ctx.box0
  let box1 := ctx.box1
  let box2 := ctx.box2
  let volume := box0.x * box1.y * box2.z
  -- lines 102-103: propose a volume perturbation
  let deltaVolume0 := s.volumeScale.get axis * 2 * (env.stream s.rng - 0.5)
  let c1 := s.rng + 1
  let newVolume0 := volume + deltaVolume0
  -- lines 104-108: per-axis length scales
  let lengthScale0 : Vec3 :=
    if (axis = 0 ∨ axis = 1) ∧ owner.xyMode = XYMode.XYIsotropic then
      ⟨env.math.sqrt (newVolume0 / volume), env.math.sqrt (newVolume0 / volume), 1⟩
    else
      Vec3.setAt ⟨1, 1, 1⟩ axis (newVolume0 / volume)
  -- lines 109-113: ConstantVolume override of the normal axis
  let ov : Vec3 × ℚ × ℚ :=
    if owner.zMode = ZMode.ConstantVolume then
      (⟨lengthScale0.x, lengthScale0.y, 1 / (lengthScale0.x * lengthScale0.y)⟩, volume, 0)
    else
      (lengthScale0, newVolume0, deltaVolume0)
  let lengthScale := ov.1
  let newVolume := ov.2.1
  let deltaVolume := ov.2.2
  -- line 114: lateral area change
  let deltaArea := box0.x * lengthScale.x * box1.y * lengthScale.y - box0.x * box1.y
  -- lines 115-116: scale the coordinates and commit the new box
  let scaled := scaleCoordinates ctx ks lengthScale
  let ctx1 : Context :=
    { scaled.1 with
      box0 := Vec3.smul lengthScale.x box0
      box1 := Vec3.smul lengthScale.y box1
      box2 := Vec3.smul lengthScale.z box2 }
  let ks1 := scaled.2
  -- lines 120-122: the Metropolis weight
  let finalEnergy := env.energy ctx1
  let kT := BOLTZ * owner.temperature
  let w := finalEnergy - initialEnergy + pressure * deltaVolume - tension * deltaArea -
    (env.molecules : ℚ) * kT * env.math.log (newVolume / volume)
  trialTail env.math env.stream kT ctx ctx1 ks1 s axis lengthScale deltaArea
    volume newVolume deltaVolume w c1

/-! ## The per-tick entry point (lines 70-145) -/

/-- `MonteCarloMembraneBarostatImpl::updateContextState` (lines 70-145).
Line 71: `if (++step < owner.getFrequency() || owner.getFrequency() == 0)
return;` — the step counter is incremented first and the call is a no-op
below the control interval or when the interval is 0.  Otherwise the
step counter resets and one trial executes.  `fuel` bounds the
axis-selection loop; `none` means the loop did not terminate within
`fuel` draws. -/
def updateContextState (owner : BarostatOwner) (env : Env) (fuel : ℕ)
    (ctx : Context) (ks : KernelState) (s : BarostatState) :
    Option UpdateResult :=
  if s.step + 1 < owner.frequency ∨ owner.frequency = 0 then
    some { ctx := ctx, ks := ks, state := { s with step := s.step + 1 },
           calls := [], info := none }
  else
    -- line 73 resets the step counter; lines 77-79 read the energy and
    -- convert the pressure and surface-tension parameters
    let initialEnergy := env.energy ctx
    let pressure := ctx.pressureParam * (AVOGADRO * 1e-25)
    let tension := ctx.surfaceTensionParam * (AVOGADRO * 1e-25)
    match selectAxis owner env.stream fuel s.rng with
    | none => none
    | some (axis, c1) =>
      some (doTrial owner env ctx ks { s with step := 0, rng := c1 } axis
        pressure tension initialEnergy)

/-- Run `n` consecutive `updateContextState` calls with a fixed
environment, threading the context, kernel and controller state. -/
def runUpdates (owner : BarostatOwner) (env : Env) (fuel : ℕ) :
    ℕ → Context × KernelState × BarostatState →
    Option (Context × KernelState × BarostatState)
  | 0, x => some x
  | n + 1, (ctx, ks, s) =>
    match updateContextState owner env fuel ctx ks s with
    | none => none
    | some r => runUpdates owner env fuel n (r.ctx, r.ks, r.state)

/-- Run consecutive `updateContextState` calls, one per environment in
the list (the energy function and parameters may change between ticks;
the random stream is consumed through the cursor in the state). -/
def runUpdatesEnvs (owner : BarostatOwner) (fuel : ℕ) :
    List Env → Context × KernelState × BarostatState →
    Option (Context × KernelState × BarostatState)
  | [], x => some x
  | env :: rest, (ctx, ks, s) =>
    match updateContextState owner env fuel ctx ks s with
    | none => none
    | some r => runUpdatesEnvs owner fuel rest (r.ctx, r.ks, r.state)

/-- Run `n` consecutive `updateContextState` calls while accumulating a
Boolean check that the box volume is strictly positive after every call
(used to exhibit reachable states whose box volume stayed positive
throughout). -/
def runUpdatesChecked (owner : BarostatOwner) (env : Env) (fuel : ℕ) :
    ℕ → Context → KernelState → BarostatState → Bool →
    Option (Context × KernelState × BarostatState × Bool)
  | 0, ctx, ks, s, b => some (ctx, ks, s, b)
  | n + 1, ctx, ks, s, b =>
    match updateContextState owner env fuel ctx ks s with
    | none => none
    | some r =>
      runUpdatesChecked owner env fuel n r.ctx r.ks r.state
        (b && decide (0 < r.ctx.volume))

/-- The barostat-state invariant of spec §3: accepted counts never exceed
attempted counts and every move amplitude is positive. -/
def BarostatInvariant (s : BarostatState) : Prop :=
  ∀ i : Fin 3, s.numAccepted.get i ≤ s.numAttempted.get i ∧ 0 < s.volumeScale.get i

/-! ## Reference Drude kernel factory
(src/plugins/drude/platforms/reference/src/ReferenceDrudeKernelFactory.cpp) -/

/-- Modelled from the spec: `CalcDrudeForceKernel::Name()` is declared in
a header that is not among the sources here; it is a stable opaque kernel
name string (spec §3). -/
def calcDrudeForceKernelName : String := "calcDrudeForce"

/-- Modelled from the spec: `IntegrateDrudeLangevinStepKernel::Name()` is
declared in a header that is not among the sources here; it is a stable
opaque kernel name string (spec §3). -/
def integrateDrudeLangevinStepKernelName : String := "integrateDrudeLangevinStep"

/-- The concrete kernels the factory can construct (lines 57 and 59). -/
inductive ReferenceDrudeKernel where
  | referenceCalcDrudeForceKernel (name : String)
  | referenceIntegrateDrudeLangevinStepKernel (name : String)
deriving DecidableEq, Repr

/-- `initDrudeReferenceKernels` (lines 47-52): the two kernel names the
factory registers on the Reference platform at load time. -/
def drudeReferenceRegisteredNames : List String :=
  [calcDrudeForceKernelName, integrateDrudeLangevinStepKernelName]

/-- `ReferenceDrudeKernelFactory::createKernelImpl` (lines 54-61): return
a constructed kernel for the two known names, throw an `OpenMMException`
for any other name. -/
def createKernelImpl (name : String) : Except String ReferenceDrudeKernel :=
  if name = calcDrudeForceKernelName then
    Except.ok (ReferenceDrudeKernel.referenceCalcDrudeForceKernel name)
  else if name = integrateDrudeLangevinStepKernelName then
    Except.ok (ReferenceDrudeKernel.referenceIntegrateDrudeLangevinStepKernel name)
  else
    Except.error ("Tried to create kernel with illegal kernel name " ++ name)

/-! ## Concrete instances used by the witnesses and counterexamples -/

/-- Log stand-in for the concrete traces: negative for arguments below 1
(as the real log is), zero at 1 (exactly as the real log), a moderate
positive value above 1, and a hugely negative value at nonpositive
arguments (standing in for the -inf the C++ double log produces at 0).
Every comparison the traces perform lands on the same side as with the
real log, so the traces take the same branches the C++ code would. -/
def cexLog (x : ℚ) : ℚ :=
  if x ≤ 0 then -(10 ^ 9) else if x < 1 then -1 else if x = 1 then 0 else 1/2

/-- Exp stand-in for the concrete traces: essentially zero for very
negative arguments, a value in (0, 1) for negative arguments, 1
otherwise; every comparison the traces perform lands on the same side as
with the real exp. -/
def cexExp (x : ℚ) : ℚ :=
  if x ≤ -10 then 1 / 1000000 else if x < 0 then 1/4 else 1

def cexMath : MathOracle := { exp := cexExp, log := cexLog, sqrt := fun x => x }

/-- A 1 × 1 × 100 nm axis-aligned box with one particle, pressure
parameter 1000 and zero surface tension. -/
def cexCtx : Context :=
  { box0 := ⟨1, 0, 0⟩, box1 := ⟨0, 1, 0⟩, box2 := ⟨0, 0, 100⟩,
    positions := [⟨1, 2, 3⟩], pressureParam := 1000, surfaceTensionParam := 0 }

/-- Anisotropic lateral coupling, free normal axis, control interval 1. -/
def cexOwner : BarostatOwner :=
  { temperature := 300, frequency := 1, xyMode := XYMode.XYAnisotropic,
    zMode := ZMode.ZFree }

/-- Draw sequence of the C3 counterexample trace: three accepted
contractions, then rejected expansions only. -/
def c3Stream (n : ℕ) : ℚ :=
  if n < 6 then 0
  else if (n - 6) % 3 = 1 then 3/4
  else if (n - 6) % 3 = 2 then 1/2
  else 0

def c3Env : Env :=
  { stream := c3Stream, energy := fun _ => 0, molecules := 1, math := cexMath }

/-- Draw sequence of the C7 counterexample trace: 49 cycles of one
rejected expansion and two accepted unit contractions on axis 0 (keeping
the axis-0 acceptance ratio inside [25%, 75%] so its amplitude never
changes), one more unit contraction and one half contraction (box volume
100 → 1/2 < volumeScale[2] = 1), nine accepted null trials on axis 2,
and one rejected axis-2 trial proposing new volume exactly 0. -/
def c7Stream (n : ℕ) : ℚ :=
  if n < 343 then (if n % 7 = 1 then 3/4 else if n % 7 = 2 then 1/2 else 0)
  else if n < 345 then 0
  else if n = 345 then 0
  else if n = 346 then 1/4
  else if n < 365 then (if (n - 347) % 2 = 0 then 5/6 else 1/2)
  else if n = 365 then 5/6
  else if n = 366 then 1/4
  else 1/2

def c7Env : Env :=
  { stream := c7Stream, energy := fun _ => 0, molecules := 1, math := cexMath }

/-- Owner with control interval 0 (the disabled barostat of C6). -/
def c6Owner : BarostatOwner :=
  { temperature := 300, frequency := 0, xyMode := XYMode.XYIsotropic,
    zMode := ZMode.ZFixed }

/-- Owner with a non-free normal axis (for the C8 counterexample). -/
def c8Owner : BarostatOwner :=
  { temperature := 300, frequency := 1, xyMode := XYMode.XYAnisotropic,
    zMode := ZMode.ZFixed }

/-- A stream on which the axis-selection loop never terminates when the
normal axis is not free: every draw maps to the axis-2 branch. -/
def c8Stream (_ : ℕ) : ℚ := 9/10

def w1Owner : BarostatOwner :=
  { temperature := 300, frequency := 1, xyMode := XYMode.XYAnisotropic,
    zMode := ZMode.ZFixed }

def w1Ctx : Context :=
  { box0 := ⟨1, 0, 0⟩, box1 := ⟨0, 1, 0⟩, box2 := ⟨0, 0, 100⟩,
    positions := [⟨1, 2, 3⟩], pressureParam := 0, surfaceTensionParam := 0 }

def w1Env : Env :=
  { stream := fun _ => 0, energy := fun _ => 0, molecules := 0, math := cexMath }

def w2Stream (n : ℕ) : ℚ := if n = 0 then 0 else if n = 1 then 3/4 else 1/2

def w2Env : Env :=
  { stream := w2Stream, energy := fun _ => 0, molecules := 1, math := cexMath }

/-- A controller state nine attempted-and-accepted trials into a batch
(the C4 witness makes the tenth). -/
def w4S : BarostatState :=
  { volumeScale := ⟨1, 1, 1⟩, numAttempted := ⟨9, 0, 0⟩,
    numAccepted := ⟨9, 0, 0⟩, step := 0, rng := 0 }

def w5Owner : BarostatOwner :=
  { temperature := 300, frequency := 1, xyMode := XYMode.XYAnisotropic,
    zMode := ZMode.ConstantVolume }

def w10Owner : BarostatOwner :=
  { temperature := 300, frequency := 1, xyMode := XYMode.XYIsotropic,
    zMode := ZMode.ZFixed }

def w10Env : Env :=
  { stream := fun _ => 1/2, energy := fun _ => 0, molecules := 0,
    math := cexMath }

/-- Context reached by the C3 counterexample trace after 12 calls. -/
def c3Ctx12 : Context :=
  { box0 := ⟨97/100, 0, 0⟩, box1 := ⟨0, 1, 0⟩, box2 := ⟨0, 0, 100⟩,
    positions := [⟨97/100, 2, 3⟩], pressureParam := 1000, surfaceTensionParam := 0 }

def c3Ks12 : KernelState := ⟨[⟨97/100, 2, 3⟩]⟩

def c3S12 : BarostatState :=
  { volumeScale := ⟨1, 1, 1⟩, numAttempted := ⟨12, 0, 0⟩,
    numAccepted := ⟨3, 0, 0⟩, step := 0, rng := 33 }

def c3S13 : BarostatState :=
  { volumeScale := ⟨10/11, 1, 1⟩, numAttempted := ⟨0, 0, 0⟩,
    numAccepted := ⟨0, 0, 0⟩, step := 0, rng := 36 }

/-- C7 counterexample trace state after 21 calls. -/
def c7Ctx21 : Context :=
  { box0 := ⟨43/50, 0, 0⟩, box1 := ⟨0, 1, 0⟩, box2 := ⟨0, 0, 100⟩,
    positions := [⟨43/50, 2, 3⟩], pressureParam := 1000, surfaceTensionParam := 0 }

def c7Ks21 : KernelState := ⟨[⟨87/100, 2, 3⟩]⟩

def c7S21 : BarostatState :=
  { volumeScale := ⟨1, 1, 1⟩, numAttempted := ⟨21, 0, 0⟩,
    numAccepted := ⟨14, 0, 0⟩, step := 0, rng := 49 }

/-- C7 counterexample trace state after 42 calls. -/
def c7Ctx42 : Context :=
  { box0 := ⟨18/25, 0, 0⟩, box1 := ⟨0, 1, 0⟩, box2 := ⟨0, 0, 100⟩,
    positions := [⟨18/25, 2, 3⟩], pressureParam := 1000, surfaceTensionParam := 0 }

def c7Ks42 : KernelState := ⟨[⟨73/100, 2, 3⟩]⟩

def c7S42 : BarostatState :=
  { volumeScale := ⟨1, 1, 1⟩, numAttempted := ⟨42, 0, 0⟩,
    numAccepted := ⟨28, 0, 0⟩, step := 0, rng := 98 }

/-- C7 counterexample trace state after 63 calls. -/
def c7Ctx63 : Context :=
  { box0 := ⟨29/50, 0, 0⟩, box1 := ⟨0, 1, 0⟩, box2 := ⟨0, 0, 100⟩,
    positions := [⟨29/50, 2, 3⟩], pressureParam := 1000, surfaceTensionParam := 0 }

def c7Ks63 : KernelState := ⟨[⟨59/100, 2, 3⟩]⟩

def c7S63 : BarostatState :=
  { volumeScale := ⟨1, 1, 1⟩, numAttempted := ⟨63, 0, 0⟩,
    numAccepted := ⟨42, 0, 0⟩, step := 0, rng := 147 }

/-- C7 counterexample trace state after 84 calls. -/
def c7Ctx84 : Context :=
  { box0 := ⟨11/25, 0, 0⟩, box1 := ⟨0, 1, 0⟩, box2 := ⟨0, 0, 100⟩,
    positions := [⟨11/25, 2, 3⟩], pressureParam := 1000, surfaceTensionParam := 0 }

def c7Ks84 : KernelState := ⟨[⟨9/20, 2, 3⟩]⟩

def c7S84 : BarostatState :=
  { volumeScale := ⟨1, 1, 1⟩, numAttempted := ⟨84, 0, 0⟩,
    numAccepted := ⟨56, 0, 0⟩, step := 0, rng := 196 }

/-- C7 counterexample trace state after 105 calls. -/
def c7Ctx105 : Context :=
  { box0 := ⟨3/10, 0, 0⟩, box1 := ⟨0, 1, 0⟩, box2 := ⟨0, 0, 100⟩,
    positions := [⟨3/10, 2, 3⟩], pressureParam := 1000, surfaceTensionParam := 0 }

def c7Ks105 : KernelState := ⟨[⟨31/100, 2, 3⟩]⟩

def c7S105 : BarostatState :=
  { volumeScale := ⟨1, 1, 1⟩, numAttempted := ⟨105, 0, 0⟩,
    numAccepted := ⟨70, 0, 0⟩, step := 0, rng := 245 }

/-- C7 counterexample trace state after 126 calls. -/
def c7Ctx126 : Context :=
  { box0 := ⟨4/25, 0, 0⟩, box1 := ⟨0, 1, 0⟩, box2 := ⟨0, 0, 100⟩,
    positions := [⟨4/25, 2, 3⟩], pressureParam := 1000, surfaceTensionParam := 0 }

def c7Ks126 : KernelState := ⟨[⟨17/100, 2, 3⟩]⟩

def c7S126 : BarostatState :=
  { volumeScale := ⟨1, 1, 1⟩, numAttempted := ⟨126, 0, 0⟩,
    numAccepted := ⟨84, 0, 0⟩, step := 0, rng := 294 }

/-- C7 counterexample trace state after 147 calls. -/
def c7Ctx147 : Context :=
  { box0 := ⟨1/50, 0, 0⟩, box1 := ⟨0, 1, 0⟩, box2 := ⟨0, 0, 100⟩,
    positions := [⟨1/50, 2, 3⟩], pressureParam := 1000, surfaceTensionParam := 0 }

def c7Ks147 : KernelState := ⟨[⟨3/100, 2, 3⟩]⟩

def c7S147 : BarostatState :=
  { volumeScale := ⟨1, 1, 1⟩, numAttempted := ⟨147, 0, 0⟩,
    numAccepted := ⟨98, 0, 0⟩, step := 0, rng := 343 }

/-- C7 counterexample trace state after 159 calls. -/
def c7Ctx159 : Context :=
  { box0 := ⟨1/200, 0, 0⟩, box1 := ⟨0, 1, 0⟩, box2 := ⟨0, 0, 100⟩,
    positions := [⟨1/200, 2, 3⟩], pressureParam := 1000, surfaceTensionParam := 0 }

def c7Ks159 : KernelState := ⟨[⟨1/200, 2, 3⟩]⟩

def c7S159 : BarostatState :=
  { volumeScale := ⟨1, 1, 0⟩, numAttempted := ⟨149, 0, 0⟩,
    numAccepted := ⟨100, 0, 0⟩, step := 0, rng := 368 }

/-- The single C1-witness call (an accepted trial). -/
def w1ResCtx : Context :=
  { box0 := ⟨99/100, 0, 0⟩, box1 := ⟨0, 1, 0⟩, box2 := ⟨0, 0, 100⟩,
    positions := [⟨99/100, 2, 3⟩], pressureParam := 0, surfaceTensionParam := 0 }

def w1ResKs : KernelState := ⟨[⟨1, 2, 3⟩]⟩

def w1ResState : BarostatState :=
  { volumeScale := ⟨1, 1, 1⟩, numAttempted := ⟨1, 0, 0⟩,
    numAccepted := ⟨1, 0, 0⟩, step := 0, rng := 2 }

def w1ResInfo : TrialInfo :=
  { axis := 0, deltaVolume := (-1), newVolume := 99,
    lengthScale := ⟨99/100, 1, 1⟩, deltaArea := (-(1/100)), w := 0,
    acceptDraw := none, accepted := true, tuningVolume := 100 }

def w1Res : UpdateResult :=
  { ctx := w1ResCtx, ks := w1ResKs, state := w1ResState,
    calls := [KernelCall.scaleCoordinatesCall (99/100) (1) (1)], info := some w1ResInfo }

/-- The single C2-witness call (a rejected trial). -/
def w2ResCtx : Context :=
  { box0 := ⟨1, 0, 0⟩, box1 := ⟨0, 1, 0⟩, box2 := ⟨0, 0, 100⟩,
    positions := [⟨1, 2, 3⟩], pressureParam := 1000, surfaceTensionParam := 0 }

def w2ResKs : KernelState := ⟨[⟨1, 2, 3⟩]⟩

def w2ResState : BarostatState :=
  { volumeScale := ⟨1, 1, 1⟩, numAttempted := ⟨1, 0, 0⟩,
    numAccepted := ⟨0, 0, 0⟩, step := 0, rng := 3 }

def w2ResInfo : TrialInfo :=
  { axis := 0, deltaVolume := 1/2, newVolume := 201/2,
    lengthScale := ⟨201/200, 1, 1⟩, deltaArea := 1/200, w := 2886350681820771/100000000000000,
    acceptDraw := some (1/2), accepted := false, tuningVolume := 201/2 }

def w2Res : UpdateResult :=
  { ctx := w2ResCtx, ks := w2ResKs, state := w2ResState,
    calls := [KernelCall.scaleCoordinatesCall (201/200) (1) (1), KernelCall.restoreCoordinatesCall], info := some w2ResInfo }

/-- The single C4-witness call (tuning growth fires). -/
def w4ResCtx : Context :=
  { box0 := ⟨99/100, 0, 0⟩, box1 := ⟨0, 1, 0⟩, box2 := ⟨0, 0, 100⟩,
    positions := [⟨99/100, 2, 3⟩], pressureParam := 0, surfaceTensionParam := 0 }

def w4ResKs : KernelState := ⟨[⟨1, 2, 3⟩]⟩

def w4ResState : BarostatState :=
  { volumeScale := ⟨11/10, 1, 1⟩, numAttempted := ⟨0, 0, 0⟩,
    numAccepted := ⟨0, 0, 0⟩, step := 0, rng := 2 }

def w4ResInfo : TrialInfo :=
  { axis := 0, deltaVolume := (-1), newVolume := 99,
    lengthScale := ⟨99/100, 1, 1⟩, deltaArea := (-(1/100)), w := 0,
    acceptDraw := none, accepted := true, tuningVolume := 100 }

def w4Res : UpdateResult :=
  { ctx := w4ResCtx, ks := w4ResKs, state := w4ResState,
    calls := [KernelCall.scaleCoordinatesCall (99/100) (1) (1)], info := some w4ResInfo }

/-- The single C5-witness call (a ConstantVolume trial). -/
def w5ResCtx : Context :=
  { box0 := ⟨99/100, 0, 0⟩, box1 := ⟨0, 1, 0⟩, box2 := ⟨0, 0, 10000/99⟩,
    positions := [⟨99/100, 2, 100/33⟩], pressureParam := 1000, surfaceTensionParam := 0 }

def w5ResKs : KernelState := ⟨[⟨1, 2, 3⟩]⟩

def w5ResState : BarostatState :=
  { volumeScale := ⟨1, 1, 1⟩, numAttempted := ⟨1, 0, 0⟩,
    numAccepted := ⟨1, 0, 0⟩, step := 0, rng := 2 }

def w5ResInfo : TrialInfo :=
  { axis := 0, deltaVolume := 0, newVolume := 100,
    lengthScale := ⟨99/100, 1, 100/99⟩, deltaArea := (-(1/100)), w := 0,
    acceptDraw := none, accepted := true, tuningVolume := 100 }

def w5Res : UpdateResult :=
  { ctx := w5ResCtx, ks := w5ResKs, state := w5ResState,
    calls := [KernelCall.scaleCoordinatesCall (99/100) (1) (100/99)], info := some w5ResInfo }

/-- State triple after the single C10-witness call. -/
def w10Ctx : Context :=
  { box0 := ⟨1, 0, 0⟩, box1 := ⟨0, 1, 0⟩, box2 := ⟨0, 0, 100⟩,
    positions := [⟨1, 2, 3⟩], pressureParam := 1000, surfaceTensionParam := 0 }

def w10Ks : KernelState := ⟨[⟨1, 2, 3⟩]⟩

def w10S : BarostatState :=
  { volumeScale := ⟨1, 1, 1⟩, numAttempted := ⟨1, 0, 0⟩,
    numAccepted := ⟨1, 0, 0⟩, step := 0, rng := 2 }

/-! ## Helper lemmas -/

theorem xyAniso_eq_iso_iff : (XYMode.XYAnisotropic = XYMode.XYIsotropic) = False := by
  simp

theorem zFree_eq_cv_iff : (ZMode.ZFree = ZMode.ConstantVolume) = False := by
  simp

theorem zFree_eq_zFree_iff : (ZMode.ZFree = ZMode.ZFree) = True := by
  simp

/-- When a call to `updateContextState` produced a trial record, the
step-counter gate was passed, some axis was selected, and the result is
the corresponding `doTrial` outcome. -/
theorem updateContextState_trial (owner : BarostatOwner) (env : Env) (fuel : ℕ)
    (ctx : Context) (ks : KernelState) (s : BarostatState) (r : UpdateResult)
    (hr : updateContextState owner env fuel ctx ks s = some r)
    (hi : r.info.isSome) :
    ∃ axis c1, selectAxis owner env.stream fuel s.rng = some (axis, c1) ∧
      r = doTrial owner env ctx ks { s with step := 0, rng := c1 } axis
            (ctx.pressureParam * (AVOGADRO * 1e-25))
            (ctx.surfaceTensionParam * (AVOGADRO * 1e-25)) (env.energy ctx) := by
  unfold updateContextState at hr
  split at hr
  · cases hr
    simp at hi
  · split at hr
    · cases hr
    · cases hr
      rename_i axis c1 hsel
      exact ⟨axis, c1, hsel, rfl⟩

/-- Every `doTrial` outcome carries a trial record. -/
theorem doTrial_info_isSome (owner : BarostatOwner) (env : Env) (ctx : Context)
    (ks : KernelState) (s : BarostatState) (axis : Fin 3)
    (pressure tension E0 : ℚ) :
    (doTrial owner env ctx ks s axis pressure tension E0).info.isSome := by
  unfold doTrial trialTail finishTrial
  simp

/-- The shape of the line-123 decision: with `w ≤ 0` the trial is not
rejected and no acceptance variate is drawn; with `w > 0` a variate `u`
is drawn and the trial is not rejected exactly when `u ≤ exp(-w/kT)`. -/
theorem trialOutcome_spec (math : MathOracle) (stream : ℕ → ℚ) (kT w : ℚ) (c1 : ℕ) :
    (w ≤ 0 → (!(trialOutcome math stream kT w c1).1) = true ∧
      (trialOutcome math stream kT w c1).2.1 = none) ∧
    (0 < w → ∃ u, (trialOutcome math stream kT w c1).2.1 = some u ∧
      ((!(trialOutcome math stream kT w c1).1) = true ↔ u ≤ math.exp (-w / kT))) := by
  unfold trialOutcome
  split_ifs with hw
  · refine ⟨fun h => absurd hw (not_lt.mpr h), fun _ => ⟨stream c1, rfl, ?_⟩⟩
    by_cases he : math.exp (-w / kT) < stream c1
    · simp [he, not_le.mpr he]
    · simp [he, not_lt.mp he]
  · exact ⟨fun _ => ⟨rfl, rfl⟩, fun h => absurd h hw⟩

/-- The acceptance decision a trial records: with `w ≤ 0` the trial is
accepted and no acceptance variate is drawn; with `w > 0` a variate `u`
is drawn and the trial is accepted exactly when `u ≤ exp(-w/kT)`. -/
theorem doTrial_acceptance (owner : BarostatOwner) (env : Env) (ctx : Context)
    (ks : KernelState) (s : BarostatState) (axis : Fin 3)
    (pressure tension E0 : ℚ) (ti : TrialInfo)
    (hti : (doTrial owner env ctx ks s axis pressure tension E0).info = some ti) :
    (ti.w ≤ 0 → ti.accepted = true ∧ ti.acceptDraw = none) ∧
    (0 < ti.w → ∃ u, ti.acceptDraw = some u ∧
      (ti.accepted = true ↔ u ≤ env.math.exp (-ti.w / (BOLTZ * owner.temperature)))) := by
  unfold doTrial trialTail finishTrial at hti
  simp only [Option.some.injEq] at hti
  subst hti
  exact trialOutcome_spec env.math env.stream (BOLTZ * owner.temperature) _ _

/-- The trial record stores the quantities the trial computed. -/
theorem trialTail_info_fields (math : MathOracle) (stream : ℕ → ℚ) (kT : ℚ)
    (ctx ctx1 : Context) (ks1 : KernelState) (s : BarostatState) (axis : Fin 3)
    (lengthScale : Vec3) (dA vol newVol dV w : ℚ) (c1 : ℕ) (ti : TrialInfo)
    (hti : (trialTail math stream kT ctx ctx1 ks1 s axis lengthScale dA vol
      newVol dV w c1).info = some ti) :
    ti.axis = axis ∧ ti.deltaVolume = dV ∧ ti.newVolume = newVol ∧
    ti.lengthScale = lengthScale ∧ ti.deltaArea = dA ∧ ti.w = w := by
  unfold trialTail finishTrial at hti
  simp only [Option.some.injEq] at hti
  subst hti
  exact ⟨rfl, rfl, rfl, rfl, rfl, rfl⟩

/-- On rejection, the trial resets the context's box vectors to the
pre-trial ones, restores the saved coordinates, records the
`restoreCoordinates` kernel call, and overwrites the local volume
variable with the attempted new volume. -/
theorem trialTail_rejected (math : MathOracle) (stream : ℕ → ℚ) (kT : ℚ)
    (ctx ctx1 : Context) (ks1 : KernelState) (s : BarostatState) (axis : Fin 3)
    (lengthScale : Vec3) (dA vol newVol dV w : ℚ) (c1 : ℕ) (ti : TrialInfo)
    (hti : (trialTail math stream kT ctx ctx1 ks1 s axis lengthScale dA vol
      newVol dV w c1).info = some ti)
    (hrej : ti.accepted = false) :
    (trialTail math stream kT ctx ctx1 ks1 s axis lengthScale dA vol newVol dV
        w c1).ctx.box0 = ctx.box0 ∧
    (trialTail math stream kT ctx ctx1 ks1 s axis lengthScale dA vol newVol dV
        w c1).ctx.box1 = ctx.box1 ∧
    (trialTail math stream kT ctx ctx1 ks1 s axis lengthScale dA vol newVol dV
        w c1).ctx.box2 = ctx.box2 ∧
    (trialTail math stream kT ctx ctx1 ks1 s axis lengthScale dA vol newVol dV
        w c1).ctx.positions = ks1.saved ∧
    KernelCall.restoreCoordinatesCall ∈
      (trialTail math stream kT ctx ctx1 ks1 s axis lengthScale dA vol newVol
        dV w c1).calls ∧
    ti.tuningVolume = newVol := by
  have hb : (trialOutcome math stream kT w c1).1 = true := by
    unfold trialTail finishTrial at hti
    simp only [Option.some.injEq] at hti
    subst hti
    simpa using hrej
  unfold trialTail finishTrial restoreCoordinates at hti ⊢
  simp only [Option.some.injEq] at hti
  subst hti
  simp [hb]

/-- On acceptance, the trial keeps the scaled context and the local
volume variable keeps its pre-trial value. -/
theorem trialTail_accepted (math : MathOracle) (stream : ℕ → ℚ) (kT : ℚ)
    (ctx ctx1 : Context) (ks1 : KernelState) (s : BarostatState) (axis : Fin 3)
    (lengthScale : Vec3) (dA vol newVol dV w : ℚ) (c1 : ℕ) (ti : TrialInfo)
    (hti : (trialTail math stream kT ctx ctx1 ks1 s axis lengthScale dA vol
      newVol dV w c1).info = some ti)
    (hacc : ti.accepted = true) :
    (trialTail math stream kT ctx ctx1 ks1 s axis lengthScale dA vol newVol dV
        w c1).ctx = ctx1 ∧
    ti.tuningVolume = vol := by
  have hb : (trialOutcome math stream kT w c1).1 = false := by
    unfold trialTail finishTrial at hti
    simp only [Option.some.injEq] at hti
    subst hti
    simpa using hacc
  unfold trialTail finishTrial at hti ⊢
  simp only [Option.some.injEq] at hti
  subst hti
  simp [hb]

/-- The controller state after a trial: the trial axis's entries go
through the counter increments and the tuning step, the step counter is
0, and the cursor advanced past the consumed draws. -/
theorem trialTail_state (math : MathOracle) (stream : ℕ → ℚ) (kT : ℚ)
    (ctx ctx1 : Context) (ks1 : KernelState) (s : BarostatState) (axis : Fin 3)
    (lengthScale : Vec3) (dA vol newVol dV w : ℚ) (c1 : ℕ) (ti : TrialInfo)
    (hti : (trialTail math stream kT ctx ctx1 ks1 s axis lengthScale dA vol
      newVol dV w c1).info = some ti) :
    (trialTail math stream kT ctx ctx1 ks1 s axis lengthScale dA vol newVol dV
        w c1).state =
      { volumeScale := s.volumeScale.setAt axis
          (tuneStep (s.volumeScale.get axis) (s.numAttempted.get axis + 1)
            (s.numAccepted.get axis + (if ti.accepted then 1 else 0))
            ti.tuningVolume).1
        numAttempted := s.numAttempted.setAt axis
          (tuneStep (s.volumeScale.get axis) (s.numAttempted.get axis + 1)
            (s.numAccepted.get axis + (if ti.accepted then 1 else 0))
            ti.tuningVolume).2.1
        numAccepted := s.numAccepted.setAt axis
          (tuneStep (s.volumeScale.get axis) (s.numAttempted.get axis + 1)
            (s.numAccepted.get axis + (if ti.accepted then 1 else 0))
            ti.tuningVolume).2.2
        step := s.step
        rng := (trialOutcome math stream kT w c1).2.2 } := by
  unfold trialTail finishTrial at hti ⊢
  simp only [Option.some.injEq] at hti
  subst hti
  rfl

/-- Every `doTrial` call is a `trialTail` call on the intermediate
quantities of lines 99-122; the saved coordinates are the pre-trial ones
and the local volume variable starts at the pre-trial box volume. -/
theorem doTrial_eq_trialTail (owner : BarostatOwner) (env : Env) (ctx : Context)
    (ks : KernelState) (s : BarostatState) (axis : Fin 3)
    (pressure tension E0 : ℚ) :
    ∃ ctx1 ks1 lengthScale dA vol newVol dV w c1,
      doTrial owner env ctx ks s axis pressure tension E0 =
        trialTail env.math env.stream (BOLTZ * owner.temperature) ctx ctx1 ks1
          s axis lengthScale dA vol newVol dV w c1 ∧
      ks1.saved = ctx.positions ∧ vol = ctx.volume := by
  exact ⟨_, _, _, _, _, _, _, _, _, rfl, rfl, rfl⟩

/-- C1: For every trial executed by `updateContextState`, if the computed
Metropolis weight `w ≤ 0` the trial is accepted unconditionally (no
acceptance variate is even drawn), and if `w > 0` the trial is accepted
iff the drawn uniform variate `u` satisfies `u ≤ exp(-w/kT)`. -/
theorem mcmb_C1_metropolis_acceptance (owner : BarostatOwner) (env : Env)
    (fuel : ℕ) (ctx : Context) (ks : KernelState) (s : BarostatState)
    (r : UpdateResult) (ti : TrialInfo)
    (hr : updateContextState owner env fuel ctx ks s = some r)
    (hi : r.info = some ti) :
    (ti.w ≤ 0 → ti.accepted = true ∧ ti.acceptDraw = none) ∧
    (0 < ti.w → ∃ u, ti.acceptDraw = some u ∧
      (ti.accepted = true ↔
        u ≤ env.math.exp (-ti.w / (BOLTZ * owner.temperature)))) := by
  obtain ⟨axis, c1, hsel, rfl⟩ :=
    updateContextState_trial owner env fuel ctx ks s r hr (by rw [hi]; rfl)
  exact doTrial_acceptance _ _ _ _ _ _ _ _ _ _ hi

/-- C2: For every rejected trial, the controller invokes the kernel's
`restoreCoordinates`, and resets the context's periodic box vectors to
exactly their pre-trial values, so the box vectors (and the restored
particle coordinates) after the call equal their values before the call;
the controller's local current-volume used by the subsequent tuning step
is nevertheless the attempted (unapplied) new volume. -/
theorem mcmb_C2_rejection_rolls_back (owner : BarostatOwner) (env : Env)
    (fuel : ℕ) (ctx : Context) (ks : KernelState) (s : BarostatState)
    (r : UpdateResult) (ti : TrialInfo)
    (hr : updateContextState owner env fuel ctx ks s = some r)
    (hi : r.info = some ti) (hrej : ti.accepted = false) :
    r.ctx.box0 = ctx.box0 ∧ r.ctx.box1 = ctx.box1 ∧ r.ctx.box2 = ctx.box2 ∧
    r.ctx.positions = ctx.positions ∧
    KernelCall.restoreCoordinatesCall ∈ r.calls ∧
    ti.tuningVolume = ti.newVolume := by
  obtain ⟨axis, c1, hsel, rfl⟩ :=
    updateContextState_trial owner env fuel ctx ks s r hr (by rw [hi]; rfl)
  obtain ⟨ctx1, ks1, ls, dA, vol, newVol, dV, w, c1', heq, hsaved, hvol⟩ :=
    doTrial_eq_trialTail owner env ctx ks { s with step := 0, rng := c1 } axis
      (ctx.pressureParam * (AVOGADRO * 1e-25))
      (ctx.surfaceTensionParam * (AVOGADRO * 1e-25)) (env.energy ctx)
  rw [heq] at hi ⊢
  obtain ⟨h0, h1, h2, hp, hm, htv⟩ :=
    trialTail_rejected _ _ _ _ _ _ _ _ _ _ _ _ _ _ _ _ hi hrej
  obtain ⟨-, -, hnv, -, -, -⟩ :=
    trialTail_info_fields _ _ _ _ _ _ _ _ _ _ _ _ _ _ _ _ hi
  exact ⟨h0, h1, h2, hp.trans hsaved, hm, htv.trans hnv.symm⟩

theorem cv_eq_cv_iff : (ZMode.ConstantVolume = ZMode.ConstantVolume) = True := by
  simp

theorem Context.volume_unfold (c : Context) :
    c.volume = c.box0.x * c.box1.y * c.box2.z := rfl

theorem Context.volume_congr {c d : Context} (h0 : c.box0 = d.box0)
    (h1 : c.box1 = d.box1) (h2 : c.box2 = d.box2) : c.volume = d.volume := by
  unfold Context.volume
  rw [h0, h1, h2]

/-- With the normal axis in `ConstantVolume` mode, lines 109-113 force the
trial into a `trialTail` call whose normal length scale is the reciprocal
of the lateral ones, whose effective ΔV is 0, and whose new volume is the
pre-trial volume; the committed box vectors are the pre-trial ones scaled
by those factors. -/
theorem doTrial_eq_trialTail_cv (owner : BarostatOwner) (env : Env)
    (ctx : Context) (ks : KernelState) (s : BarostatState) (axis : Fin 3)
    (pressure tension E0 : ℚ)
    (hz : owner.zMode = ZMode.ConstantVolume) :
    ∃ ctx1 ks1 ls0 dA w c1,
      doTrial owner env ctx ks s axis pressure tension E0 =
        trialTail env.math env.stream (BOLTZ * owner.temperature) ctx ctx1 ks1
          s axis ⟨Vec3.x ls0, Vec3.y ls0, 1 / (Vec3.x ls0 * Vec3.y ls0)⟩ dA
          ctx.volume ctx.volume 0 w c1 ∧
      ctx1.box0 = Vec3.smul (Vec3.x ls0) ctx.box0 ∧
      ctx1.box1 = Vec3.smul (Vec3.y ls0) ctx.box1 ∧
      ctx1.box2 = Vec3.smul (1 / (Vec3.x ls0 * Vec3.y ls0)) ctx.box2 := by
  simp only [doTrial, hz, cv_eq_cv_iff, if_true]
  exact ⟨_, _, _, _, _, _, rfl, rfl, rfl, rfl⟩

/-- C5: For every trial with the normal-axis mode `ConstantVolume`, the
normal-axis length scale is `1/(scaleX*scaleY)`, the effective ΔV used in
the Metropolis weight is 0, the new volume used for the log term is the
pre-trial volume, and (whenever the lateral scales are nondegenerate) the
total box volume is unchanged by the trial. -/
theorem mcmb_C5_constant_volume (owner : BarostatOwner) (env : Env)
    (fuel : ℕ) (ctx : Context) (ks : KernelState) (s : BarostatState)
    (r : UpdateResult) (ti : TrialInfo)
    (hz : owner.zMode = ZMode.ConstantVolume)
    (hr : updateContextState owner env fuel ctx ks s = some r)
    (hi : r.info = some ti) :
    ti.lengthScale.z = 1 / (ti.lengthScale.x * ti.lengthScale.y) ∧
    ti.deltaVolume = 0 ∧
    ti.newVolume = ctx.volume ∧
    (ti.lengthScale.x * ti.lengthScale.y ≠ 0 → r.ctx.volume = ctx.volume) := by
  obtain ⟨axis, c1, hsel, rfl⟩ :=
    updateContextState_trial owner env fuel ctx ks s r hr (by rw [hi]; rfl)
  obtain ⟨ctx1, ks1, ls0, dA, w, c1', heq, hb0, hb1, hb2⟩ :=
    doTrial_eq_trialTail_cv owner env ctx ks { s with step := 0, rng := c1 }
      axis (ctx.pressureParam * (AVOGADRO * 1e-25))
      (ctx.surfaceTensionParam * (AVOGADRO * 1e-25)) (env.energy ctx) hz
  rw [heq] at hi ⊢
  obtain ⟨-, hdv, hnv, hls, -, -⟩ :=
    trialTail_info_fields _ _ _ _ _ _ _ _ _ _ _ _ _ _ _ _ hi
  refine ⟨by rw [hls], hdv, hnv, ?_⟩
  intro hne
  rw [hls] at hne
  simp only at hne
  cases hacc : ti.accepted with
  | true =>
    obtain ⟨hctx, -⟩ :=
      trialTail_accepted _ _ _ _ _ _ _ _ _ _ _ _ _ _ _ _ hi hacc
    rw [hctx, Context.volume_unfold ctx1, hb0, hb1, hb2,
      Context.volume_unfold ctx]
    simp only [Vec3.smul]
    field_simp
    ring
  | false =>
    obtain ⟨h0, h1, h2, -, -, -⟩ :=
      trialTail_rejected _ _ _ _ _ _ _ _ _ _ _ _ _ _ _ _ hi hacc
    exact Context.volume_congr h0 h1 h2

/-- C6 (amended): when the configured control interval (frequency) is 0,
every call to `updateContextState` executes no trial and leaves the box
vectors, the per-axis counters, the move amplitudes and the RNG state
untouched — but it does increment the step counter (line 71 pre-increments
`step` before testing the interval). -/
theorem mcmb_C6_frequency_zero (owner : BarostatOwner) (env : Env) (fuel : ℕ)
    (ctx : Context) (ks : KernelState) (s : BarostatState)
    (h0 : owner.frequency = 0) :
    updateContextState owner env fuel ctx ks s =
      some { ctx := ctx, ks := ks, state := { s with step := s.step + 1 },
             calls := [], info := none } := by
  unfold updateContextState
  rw [if_pos (Or.inr h0)]

theorem Axes.get_setAt_self {α : Type} (v : Axes α) (i : Fin 3) (q : α) :
    (v.setAt i q).get i = q := by
  fin_cases i <;> simp [Axes.get, Axes.setAt]

theorem Axes.get_setAt_ne {α : Type} (v : Axes α) (i j : Fin 3) (q : α)
    (h : j ≠ i) : (v.setAt i q).get j = v.get j := by
  fin_cases i <;> fin_cases j <;> simp_all [Axes.get, Axes.setAt]

/-- The three outcomes of the lines 133-144 tuning step once the check
condition `numAttempted >= 10` holds. -/
theorem tuneStep_spec (vs : ℚ) (att acc : ℕ) (vol : ℚ) (h : 10 ≤ att) :
    ((acc : ℚ) < 0.25 * (att : ℚ) → tuneStep vs att acc vol = (vs / 1.1, 0, 0)) ∧
    (0.75 * (att : ℚ) < (acc : ℚ) →
      tuneStep vs att acc vol = (min (vs * 1.1) (vol * 0.3), 0, 0)) ∧
    (¬((acc : ℚ) < 0.25 * (att : ℚ)) ∧ ¬(0.75 * (att : ℚ) < (acc : ℚ)) →
      tuneStep vs att acc vol = (vs, att, acc)) := by
  unfold tuneStep
  rw [if_pos h]
  refine ⟨fun hc => ?_, fun hc => ?_, fun hc => ?_⟩
  · rw [if_pos hc]
  · have hle : (0 : ℚ) ≤ (att : ℚ) := Nat.cast_nonneg att
    rw [if_neg (by nlinarith), if_pos hc]
  · rw [if_neg hc.1, if_neg hc.2]

/-- The tuning step resets the counters exactly when the check condition
holds and the acceptance ratio is outside [25%, 75%]; otherwise it leaves
the amplitude alone and the counters keep accumulating. -/
theorem tuneStep_reset_iff (vs : ℚ) (att acc : ℕ) (vol : ℚ) (hatt : 0 < att) :
    ((tuneStep vs att acc vol).2.1 = 0 ↔
      (10 ≤ att ∧ ((acc : ℚ) < 0.25 * (att : ℚ) ∨ 0.75 * (att : ℚ) < (acc : ℚ)))) ∧
    ((tuneStep vs att acc vol).2.1 ≠ 0 → tuneStep vs att acc vol = (vs, att, acc)) := by
  unfold tuneStep
  split_ifs with h10 hlow hhigh
  · exact ⟨⟨fun _ => ⟨h10, Or.inl hlow⟩, fun _ => rfl⟩, fun hne => absurd rfl hne⟩
  · exact ⟨⟨fun _ => ⟨h10, Or.inr hhigh⟩, fun _ => rfl⟩, fun hne => absurd rfl hne⟩
  · refine ⟨⟨fun h => absurd hatt (by have ha : att = 0 := h; omega), ?_⟩,
      fun _ => rfl⟩
    rintro ⟨-, hc | hc⟩
    · exact absurd hc hlow
    · exact absurd hc hhigh
  · refine ⟨⟨fun h => absurd hatt (by have ha : att = 0 := h; omega), ?_⟩,
      fun _ => rfl⟩
    rintro ⟨hc, -⟩
    exact absurd hc h10

/-- The controller-state outcome of a trial, seen from
`updateContextState`: the trial axis's entries go through the counter
increments and the tuning step, and the other axes' entries are
untouched. -/
theorem updateContextState_state (owner : BarostatOwner) (env : Env)
    (fuel : ℕ) (ctx : Context) (ks : KernelState) (s : BarostatState)
    (r : UpdateResult) (ti : TrialInfo)
    (hr : updateContextState owner env fuel ctx ks s = some r)
    (hi : r.info = some ti) :
    r.state.volumeScale.get ti.axis =
      (tuneStep (s.volumeScale.get ti.axis) (s.numAttempted.get ti.axis + 1)
        (s.numAccepted.get ti.axis + (if ti.accepted then 1 else 0))
        ti.tuningVolume).1 ∧
    r.state.numAttempted.get ti.axis =
      (tuneStep (s.volumeScale.get ti.axis) (s.numAttempted.get ti.axis + 1)
        (s.numAccepted.get ti.axis + (if ti.accepted then 1 else 0))
        ti.tuningVolume).2.1 ∧
    r.state.numAccepted.get ti.axis =
      (tuneStep (s.volumeScale.get ti.axis) (s.numAttempted.get ti.axis + 1)
        (s.numAccepted.get ti.axis + (if ti.accepted then 1 else 0))
        ti.tuningVolume).2.2 ∧
    (∀ j : Fin 3, j ≠ ti.axis →
      r.state.volumeScale.get j = s.volumeScale.get j ∧
      r.state.numAttempted.get j = s.numAttempted.get j ∧
      r.state.numAccepted.get j = s.numAccepted.get j) := by
  obtain ⟨axis, c1, hsel, rfl⟩ :=
    updateContextState_trial owner env fuel ctx ks s r hr (by rw [hi]; rfl)
  obtain ⟨ctx1, ks1, ls, dA, vol, newVol, dV, w, c1', heq, -, -⟩ :=
    doTrial_eq_trialTail owner env ctx ks { s with step := 0, rng := c1 } axis
      (ctx.pressureParam * (AVOGADRO * 1e-25))
      (ctx.surfaceTensionParam * (AVOGADRO * 1e-25)) (env.energy ctx)
  rw [heq] at hi ⊢
  obtain ⟨haxis, -, -, -, -, -⟩ :=
    trialTail_info_fields _ _ _ _ _ _ _ _ _ _ _ _ _ _ _ _ hi
  have hstate := trialTail_state _ _ _ _ _ _ _ _ _ _ _ _ _ _ _ _ hi
  rw [haxis, hstate]
  refine ⟨Axes.get_setAt_self _ _ _, Axes.get_setAt_self _ _ _,
    Axes.get_setAt_self _ _ _, fun j hj => ?_⟩
  exact ⟨Axes.get_setAt_ne _ _ _ _ hj, Axes.get_setAt_ne _ _ _ _ hj,
    Axes.get_setAt_ne _ _ _ _ hj⟩

/-- C4: Whenever the tuning check runs for an axis (the post-increment
attempted count has reached 10): if the accepted count is below 25% of
the attempted count, that axis's move amplitude is divided by 1.1; if it
is above 75%, the amplitude becomes the minimum of 1.1 times itself and
30% of the controller's current-volume variable; in either of these two
branches both counters reset to 0, and otherwise nothing is changed
beyond the counter increments. -/
theorem mcmb_C4_tuning_adjustment (owner : BarostatOwner) (env : Env)
    (fuel : ℕ) (ctx : Context) (ks : KernelState) (s : BarostatState)
    (r : UpdateResult) (ti : TrialInfo)
    (hr : updateContextState owner env fuel ctx ks s = some r)
    (hi : r.info = some ti)
    (hchk : 10 ≤ s.numAttempted.get ti.axis + 1) :
    (((s.numAccepted.get ti.axis + (if ti.accepted then 1 else 0) : ℕ) : ℚ) <
        0.25 * ((s.numAttempted.get ti.axis + 1 : ℕ) : ℚ) →
      r.state.volumeScale.get ti.axis = s.volumeScale.get ti.axis / 1.1 ∧
      r.state.numAttempted.get ti.axis = 0 ∧
      r.state.numAccepted.get ti.axis = 0) ∧
    (0.75 * ((s.numAttempted.get ti.axis + 1 : ℕ) : ℚ) <
        ((s.numAccepted.get ti.axis + (if ti.accepted then 1 else 0) : ℕ) : ℚ) →
      r.state.volumeScale.get ti.axis =
        min (s.volumeScale.get ti.axis * 1.1) (ti.tuningVolume * 0.3) ∧
      r.state.numAttempted.get ti.axis = 0 ∧
      r.state.numAccepted.get ti.axis = 0) ∧
    (¬(((s.numAccepted.get ti.axis + (if ti.accepted then 1 else 0) : ℕ) : ℚ) <
        0.25 * ((s.numAttempted.get ti.axis + 1 : ℕ) : ℚ)) ∧
     ¬(0.75 * ((s.numAttempted.get ti.axis + 1 : ℕ) : ℚ) <
        ((s.numAccepted.get ti.axis + (if ti.accepted then 1 else 0) : ℕ) : ℚ)) →
      r.state.volumeScale.get ti.axis = s.volumeScale.get ti.axis ∧
      r.state.numAttempted.get ti.axis = s.numAttempted.get ti.axis + 1 ∧
      r.state.numAccepted.get ti.axis =
        s.numAccepted.get ti.axis + (if ti.accepted then 1 else 0)) := by
  obtain ⟨hvs, hatt, hacc, -⟩ :=
    updateContextState_state owner env fuel ctx ks s r ti hr hi
  obtain ⟨hlo, hhi, hmid⟩ :=
    tuneStep_spec (s.volumeScale.get ti.axis) (s.numAttempted.get ti.axis + 1)
      (s.numAccepted.get ti.axis + (if ti.accepted then 1 else 0))
      ti.tuningVolume hchk
  refine ⟨fun hc => ?_, fun hc => ?_, fun hc => ?_⟩
  · rw [hlo (by push_cast at hc ⊢; exact hc)] at hvs hatt hacc
    exact ⟨hvs, hatt, hacc⟩
  · rw [hhi (by push_cast at hc ⊢; exact hc)] at hvs hatt hacc
    exact ⟨hvs, hatt, hacc⟩
  · rw [hmid ⟨by push_cast at hc ⊢; exact hc.1, by push_cast at hc ⊢; exact hc.2⟩]
      at hvs hatt hacc
    exact ⟨hvs, hatt, hacc⟩

/-- C3 (amended): for every executed trial, the tuning adjustment (with
its counter reset) fires exactly when the post-increment attempted count
has reached 10 — so at every attempt from the 10th since the last reset
onward, not only at multiples of 10 — and the acceptance ratio lies
outside [25%, 75%]; when it does not fire, the counters keep
accumulating and the amplitude is unchanged. -/
theorem mcmb_C3_check_threshold (owner : BarostatOwner) (env : Env)
    (fuel : ℕ) (ctx : Context) (ks : KernelState) (s : BarostatState)
    (r : UpdateResult) (ti : TrialInfo)
    (hr : updateContextState owner env fuel ctx ks s = some r)
    (hi : r.info = some ti) :
    (r.state.numAttempted.get ti.axis = 0 ↔
      (10 ≤ s.numAttempted.get ti.axis + 1 ∧
        (((s.numAccepted.get ti.axis + (if ti.accepted then 1 else 0) : ℕ) : ℚ) <
            0.25 * ((s.numAttempted.get ti.axis + 1 : ℕ) : ℚ) ∨
          0.75 * ((s.numAttempted.get ti.axis + 1 : ℕ) : ℚ) <
            ((s.numAccepted.get ti.axis + (if ti.accepted then 1 else 0) : ℕ) : ℚ)))) ∧
    (r.state.numAttempted.get ti.axis ≠ 0 →
      r.state.volumeScale.get ti.axis = s.volumeScale.get ti.axis ∧
      r.state.numAttempted.get ti.axis = s.numAttempted.get ti.axis + 1 ∧
      r.state.numAccepted.get ti.axis =
        s.numAccepted.get ti.axis + (if ti.accepted then 1 else 0)) := by
  obtain ⟨hvs, hatt, hacc, -⟩ :=
    updateContextState_state owner env fuel ctx ks s r ti hr hi
  obtain ⟨hiff, hkeep⟩ :=
    tuneStep_reset_iff (s.volumeScale.get ti.axis)
      (s.numAttempted.get ti.axis + 1)
      (s.numAccepted.get ti.axis + (if ti.accepted then 1 else 0))
      ti.tuningVolume (Nat.succ_pos _)
  constructor
  · rw [hatt]
    exact hiff
  · intro hne
    rw [hatt] at hne
    rw [hkeep hne] at hvs hatt hacc
    exact ⟨hvs, hatt, hacc⟩

/-- With a free normal axis, every draw selects an axis. -/
theorem axisOfDraw_isSome_of_zFree (owner : BarostatOwner) (u : ℚ)
    (hz : owner.zMode = ZMode.ZFree) : (axisOfDraw owner u).isSome := by
  simp only [axisOfDraw, hz]
  split_ifs <;> simp

/-- With a non-free normal axis, a draw selects an axis iff `3u < 2`. -/
theorem axisOfDraw_isSome_iff (owner : BarostatOwner) (u : ℚ)
    (hz : owner.zMode ≠ ZMode.ZFree) :
    (axisOfDraw owner u).isSome ↔ u * 3 < 2 := by
  simp only [axisOfDraw]
  rw [if_neg hz]
  by_cases h1 : u * 3 < 1
  · rw [if_pos h1]
    exact iff_of_true (by decide) (by linarith)
  · rw [if_neg h1]
    by_cases h2 : u * 3 < 2
    · rw [if_pos h2]
      refine iff_of_true ?_ h2
      split_ifs <;> decide
    · rw [if_neg h2]
      exact iff_of_false (by decide) h2

/-- A selected axis is 2 only with a free normal axis, and is never 1
under isotropic lateral coupling. -/
theorem axisOfDraw_some_props (owner : BarostatOwner) (u : ℚ) (a : Fin 3)
    (h : axisOfDraw owner u = some a) :
    (a = 2 → owner.zMode = ZMode.ZFree) ∧
    (owner.xyMode = XYMode.XYIsotropic → a ≠ 1) := by
  simp only [axisOfDraw] at h
  by_cases h1 : u * 3 < 1
  · rw [if_pos h1] at h
    injection h with h
    subst h
    exact ⟨fun h' => absurd h' (by decide), fun _ h' => absurd h' (by decide)⟩
  · rw [if_neg h1] at h
    by_cases h2 : u * 3 < 2
    · rw [if_pos h2] at h
      injection h with h
      subst h
      constructor
      · intro h'
        by_cases hxy : owner.xyMode = XYMode.XYIsotropic
        · rw [if_pos hxy] at h'
          exact absurd h' (by decide)
        · rw [if_neg hxy] at h'
          exact absurd h' (by decide)
      · intro hxy
        rw [if_pos hxy]
        decide
    · rw [if_neg h2] at h
      by_cases h3 : owner.zMode = ZMode.ZFree
      · rw [if_pos h3] at h
        injection h with h
        subst h
        exact ⟨fun _ => h3, fun _ h' => absurd h' (by decide)⟩
      · rw [if_neg h3] at h
        cases h

/-- Any axis the selection loop returns satisfies the per-draw
constraints. -/
theorem selectAxis_some_props (owner : BarostatOwner) (stream : ℕ → ℚ) :
    ∀ (fuel c : ℕ) (a : Fin 3) (c' : ℕ),
      selectAxis owner stream fuel c = some (a, c') →
      (a = 2 → owner.zMode = ZMode.ZFree) ∧
      (owner.xyMode = XYMode.XYIsotropic → a ≠ 1) := by
  intro fuel
  induction fuel with
  | zero =>
    intro c a c' h
    simp [selectAxis] at h
  | succ n ih =>
    intro c a c' h
    simp only [selectAxis] at h
    cases hd : axisOfDraw owner (stream c) with
    | some b =>
      rw [hd] at h
      simp only [Option.some.injEq, Prod.mk.injEq] at h
      obtain ⟨rfl, rfl⟩ := h
      exact axisOfDraw_some_props owner (stream c) _ hd
    | none =>
      rw [hd] at h
      exact ih (c + 1) a c' h

/-- The loop finds an axis within some fuel bound iff some draw at or
after the cursor selects an axis. -/
theorem selectAxis_isSome_iff (owner : BarostatOwner) (stream : ℕ → ℚ) (c : ℕ) :
    (∃ fuel, (selectAxis owner stream fuel c).isSome) ↔
      axisLoopTerminates owner stream c := by
  have aux1 : ∀ fuel c, (selectAxis owner stream fuel c).isSome →
      ∃ n, c ≤ n ∧ (axisOfDraw owner (stream n)).isSome := by
    intro fuel
    induction fuel with
    | zero =>
      intro c h
      simp [selectAxis] at h
    | succ k ih =>
      intro c h
      simp only [selectAxis] at h
      cases hd : axisOfDraw owner (stream c) with
      | some b =>
        exact ⟨c, le_refl c, by rw [hd]; rfl⟩
      | none =>
        rw [hd] at h
        obtain ⟨m, hm, hv⟩ := ih (c + 1) h
        exact ⟨m, le_trans (Nat.le_succ c) hm, hv⟩
  have aux2 : ∀ k c, (axisOfDraw owner (stream (c + k))).isSome →
      (selectAxis owner stream (k + 1) c).isSome := by
    intro k
    induction k with
    | zero =>
      intro c h
      simp only [selectAxis]
      cases hd : axisOfDraw owner (stream c) with
      | some b => rfl
      | none =>
        rw [Nat.add_zero, hd] at h
        cases h
    | succ k ih =>
      intro c h
      simp only [selectAxis]
      cases hd : axisOfDraw owner (stream c) with
      | some b => rfl
      | none =>
        have h' : (axisOfDraw owner (stream (c + 1 + k))).isSome := by
          rwa [show c + 1 + k = c + (k + 1) from by omega]
        exact ih (c + 1) h'
  constructor
  · rintro ⟨fuel, h⟩
    exact aux1 fuel c h
  · rintro ⟨n, hcn, hv⟩
    refine ⟨n - c + 1, aux2 (n - c) c ?_⟩
    rwa [show c + (n - c) = n from by omega]

/-- C8 (amended): the axis-selection loop never selects axis 2 unless the
normal axis is free; under isotropic lateral coupling the second branch
aliases to axis 0, so axis 1 is never selected; with a free normal axis
the very first draw always succeeds; and in general the loop terminates
on a stream iff the normal axis is free or some draw at or after the
cursor satisfies `3u < 2` — it does NOT terminate on every stream. -/
theorem mcmb_C8_axis_selection_loop :
    (∀ (owner : BarostatOwner) (stream : ℕ → ℚ) (fuel c : ℕ),
      owner.zMode = ZMode.ZFree → 0 < fuel →
        (selectAxis owner stream fuel c).isSome) ∧
    (∀ (owner : BarostatOwner) (stream : ℕ → ℚ) (fuel c : ℕ) (a : Fin 3)
        (c' : ℕ), selectAxis owner stream fuel c = some (a, c') →
      (a = 2 → owner.zMode = ZMode.ZFree) ∧
      (owner.xyMode = XYMode.XYIsotropic → a ≠ 1)) ∧
    (∀ (owner : BarostatOwner) (stream : ℕ → ℚ) (c : ℕ),
      axisLoopTerminates owner stream c ↔
        (owner.zMode = ZMode.ZFree ∨ ∃ n, c ≤ n ∧ stream n * 3 < 2)) ∧
    (∀ (owner : BarostatOwner) (stream : ℕ → ℚ) (c : ℕ),
      (∃ fuel, (selectAxis owner stream fuel c).isSome) ↔
        axisLoopTerminates owner stream c) := by
  refine ⟨?_, ?_, ?_, ?_⟩
  · intro owner stream fuel c hz hf
    cases fuel with
    | zero => cases hf
    | succ k =>
      simp only [selectAxis]
      cases hd : axisOfDraw owner (stream c) with
      | some b => rfl
      | none =>
        have := axisOfDraw_isSome_of_zFree owner (stream c) hz
        rw [hd] at this
        cases this
  · intro owner stream fuel c a c' h
    exact selectAxis_some_props owner stream fuel c a c' h
  · intro owner stream c
    by_cases hz : owner.zMode = ZMode.ZFree
    · refine iff_of_true ⟨c, le_refl c, ?_⟩ (Or.inl hz)
      exact axisOfDraw_isSome_of_zFree owner (stream c) hz
    · rw [or_iff_right hz]
      unfold axisLoopTerminates
      refine exists_congr fun n => and_congr_right fun _ => ?_
      exact axisOfDraw_isSome_iff owner (stream n) hz
  · intro owner stream c
    exact selectAxis_isSome_iff owner stream c

/-- Under isotropic lateral coupling a call never touches the axis-1
entries of the controller state. -/
theorem updateContextState_iso_keeps_axis1 (owner : BarostatOwner) (env : Env)
    (fuel : ℕ) (ctx : Context) (ks : KernelState) (s : BarostatState)
    (r : UpdateResult) (hxy : owner.xyMode = XYMode.XYIsotropic)
    (hr : updateContextState owner env fuel ctx ks s = some r) :
    r.state.volumeScale.get 1 = s.volumeScale.get 1 ∧
    r.state.numAttempted.get 1 = s.numAttempted.get 1 ∧
    r.state.numAccepted.get 1 = s.numAccepted.get 1 := by
  cases hinfo : r.info with
  | none =>
    unfold updateContextState at hr
    split at hr
    · cases hr
      exact ⟨rfl, rfl, rfl⟩
    · split at hr
      · cases hr
      · cases hr
        rename_i axis c1 hsel
        have hs := doTrial_info_isSome owner env ctx ks
          { s with step := 0, rng := c1 } axis
          (ctx.pressureParam * (AVOGADRO * 1e-25))
          (ctx.surfaceTensionParam * (AVOGADRO * 1e-25)) (env.energy ctx)
        rw [hinfo] at hs
        cases hs
  | some ti =>
    obtain ⟨axis, c1, hsel, rfl⟩ :=
      updateContextState_trial owner env fuel ctx ks s r hr (by rw [hinfo]; rfl)
    obtain ⟨ctx1, ks1, ls, dA, vol, newVol, dV, w, c1', heq, -, -⟩ :=
      doTrial_eq_trialTail owner env ctx ks { s with step := 0, rng := c1 }
        axis (ctx.pressureParam * (AVOGADRO * 1e-25))
        (ctx.surfaceTensionParam * (AVOGADRO * 1e-25)) (env.energy ctx)
    rw [heq] at hinfo ⊢
    obtain ⟨haxis, -, -, -, -, -⟩ :=
      trialTail_info_fields _ _ _ _ _ _ _ _ _ _ _ _ _ _ _ _ hinfo
    have hax1 : axis ≠ 1 :=
      (selectAxis_some_props owner env.stream fuel s.rng axis c1 hsel).2 hxy
    have h1 : (1 : Fin 3) ≠ axis := fun hh => hax1 hh.symm
    rw [trialTail_state _ _ _ _ _ _ _ _ _ _ _ _ _ _ _ _ hinfo]
    exact ⟨Axes.get_setAt_ne _ _ _ _ h1, Axes.get_setAt_ne _ _ _ _ h1,
      Axes.get_setAt_ne _ _ _ _ h1⟩

/-- C10: When the lateral coupling mode is `XYIsotropic`,
`updateContextState` never selects trial axis 1, so `numAttempted[1]`,
`numAccepted[1]` and `volumeScale[1]` retain their initialize-time values
(0, 0, and 1% of the initial volume) across every sequence of update
calls. -/
theorem mcmb_C10_isotropic_axis1_frozen (owner : BarostatOwner)
    (hxy : owner.xyMode = XYMode.XYIsotropic) (fuel : ℕ) (envs : List Env)
    (ctx0 : Context) (ks0 : KernelState) (ctx' : Context) (ks' : KernelState)
    (s' : BarostatState)
    (h : runUpdatesEnvs owner fuel envs (ctx0, ks0, initState ctx0) =
      some (ctx', ks', s')) :
    s'.numAttempted.get 1 = 0 ∧ s'.numAccepted.get 1 = 0 ∧
    s'.volumeScale.get 1 = 0.01 * ctx0.volume := by
  suffices H : ∀ (envs : List Env) (ctx : Context) (ks : KernelState)
      (s : BarostatState) (ctx' : Context) (ks' : KernelState)
      (s' : BarostatState),
      runUpdatesEnvs owner fuel envs (ctx, ks, s) = some (ctx', ks', s') →
      s'.volumeScale.get 1 = s.volumeScale.get 1 ∧
      s'.numAttempted.get 1 = s.numAttempted.get 1 ∧
      s'.numAccepted.get 1 = s.numAccepted.get 1 by
    obtain ⟨hv, ha, hc⟩ := H envs ctx0 ks0 (initState ctx0) ctx' ks' s' h
    exact ⟨ha.trans rfl, hc.trans rfl, hv.trans rfl⟩
  intro envs
  induction envs with
  | nil =>
    intro ctx ks s ctx' ks' s' h
    simp only [runUpdatesEnvs, Option.some.injEq, Prod.mk.injEq] at h
    obtain ⟨-, -, rfl⟩ := h
    exact ⟨rfl, rfl, rfl⟩
  | cons e rest ih =>
    intro ctx ks s ctx' ks' s' h
    simp only [runUpdatesEnvs] at h
    cases hu : updateContextState owner e fuel ctx ks s with
    | none =>
      rw [hu] at h
      cases h
    | some r =>
      rw [hu] at h
      obtain ⟨h1, h2, h3⟩ := ih r.ctx r.ks r.state ctx' ks' s' h
      obtain ⟨g1, g2, g3⟩ :=
        updateContextState_iso_keeps_axis1 owner e fuel ctx ks s r hxy hu
      exact ⟨h1.trans g1, h2.trans g2, h3.trans g3⟩

/-- The tuning step keeps accepted counts below attempted counts. -/
theorem tuneStep_counters (vs : ℚ) (att acc : ℕ) (vol : ℚ) (h : acc ≤ att) :
    (tuneStep vs att acc vol).2.2 ≤ (tuneStep vs att acc vol).2.1 := by
  unfold tuneStep
  split_ifs <;> simp [h]

/-- The tuning step keeps the amplitude positive as long as the volume it
is capped by is positive. -/
theorem tuneStep_vs_pos (vs : ℚ) (att acc : ℕ) (vol : ℚ) (hvs : 0 < vs)
    (hvol : 0 < vol) : 0 < (tuneStep vs att acc vol).1 := by
  unfold tuneStep
  split_ifs
  · exact div_pos hvs (by norm_num)
  · exact lt_min (by linarith) (by linarith)
  · exact hvs
  · exact hvs

/-- An `updateContextState` call either is the below-interval no-op or
performed a trial. -/
theorem updateContextState_cases (owner : BarostatOwner) (env : Env)
    (fuel : ℕ) (ctx : Context) (ks : KernelState) (s : BarostatState)
    (r : UpdateResult)
    (hr : updateContextState owner env fuel ctx ks s = some r) :
    (r.state = { s with step := s.step + 1 } ∧ r.info = none) ∨
      r.info.isSome := by
  unfold updateContextState at hr
  split at hr
  · cases hr
    exact Or.inl ⟨rfl, rfl⟩
  · split at hr
    · cases hr
    · cases hr
      rename_i axis c1 hsel
      exact Or.inr (doTrial_info_isSome owner env ctx ks
        { s with step := 0, rng := c1 } axis
        (ctx.pressureParam * (AVOGADRO * 1e-25))
        (ctx.surfaceTensionParam * (AVOGADRO * 1e-25)) (env.energy ctx))

/-- C7 (amended): after `initialize` on a positive-volume box the state
invariant `numAccepted[i] ≤ numAttempted[i] ∧ 0 < volumeScale[i]` holds;
the counter half is preserved by every `updateContextState` call
unconditionally; and the full invariant is preserved by every call whose
trial (if any) had a positive local current-volume at the tuning step.
(The positivity side condition is genuinely needed: box volume positivity
alone does not suffice, see the counterexample.) -/
theorem mcmb_C7_invariant :
    (∀ ctx : Context, 0 < ctx.volume → BarostatInvariant (initState ctx)) ∧
    (∀ (owner : BarostatOwner) (env : Env) (fuel : ℕ) (ctx : Context)
        (ks : KernelState) (s : BarostatState) (r : UpdateResult),
      updateContextState owner env fuel ctx ks s = some r →
      (∀ i : Fin 3, s.numAccepted.get i ≤ s.numAttempted.get i) →
      ∀ i : Fin 3, r.state.numAccepted.get i ≤ r.state.numAttempted.get i) ∧
    (∀ (owner : BarostatOwner) (env : Env) (fuel : ℕ) (ctx : Context)
        (ks : KernelState) (s : BarostatState) (r : UpdateResult),
      updateContextState owner env fuel ctx ks s = some r →
      BarostatInvariant s →
      (∀ ti : TrialInfo, r.info = some ti → 0 < ti.tuningVolume) →
      BarostatInvariant r.state) := by
  refine ⟨?_, ?_, ?_⟩
  · intro ctx hv i
    fin_cases i <;>
      exact ⟨le_refl 0, by show (0 : ℚ) < 0.01 * ctx.volume; linarith⟩
  · intro owner env fuel ctx ks s r hr hs i
    rcases updateContextState_cases owner env fuel ctx ks s r hr with
      ⟨hst, -⟩ | hi
    · rw [hst]
      exact hs i
    · obtain ⟨ti, hti⟩ := Option.isSome_iff_exists.mp hi
      obtain ⟨-, hatt, hacc, hother⟩ :=
        updateContextState_state owner env fuel ctx ks s r ti hr hti
      by_cases hax : i = ti.axis
      · subst hax
        rw [hatt, hacc]
        refine tuneStep_counters _ _ _ _ ?_
        have := hs ti.axis
        split_ifs <;> omega
      · obtain ⟨-, h2, h3⟩ := hother i hax
        rw [h2, h3]
        exact hs i
  · intro owner env fuel ctx ks s r hr hs hvol i
    rcases updateContextState_cases owner env fuel ctx ks s r hr with
      ⟨hst, -⟩ | hi
    · rw [hst]
      exact hs i
    · obtain ⟨ti, hti⟩ := Option.isSome_iff_exists.mp hi
      obtain ⟨hvs, hatt, hacc, hother⟩ :=
        updateContextState_state owner env fuel ctx ks s r ti hr hti
      by_cases hax : i = ti.axis
      · subst hax
        rw [hvs, hatt, hacc]
        constructor
        · refine tuneStep_counters _ _ _ _ ?_
          have := (hs ti.axis).1
          split_ifs <;> omega
        · exact tuneStep_vs_pos _ _ _ _ (hs ti.axis).2 (hvol ti hti)
      · obtain ⟨h1, h2, h3⟩ := hother i hax
        rw [h1, h2, h3]
        exact hs i

/-- C9: For every kernel name string, the Reference Drude kernel
factory's `createKernelImpl` returns a constructed kernel exactly when
the name is one of the two names registered at load time, and returns the
illegal-kernel-name error for any other name. -/
theorem drude_C9_createKernelImpl (name : String) :
    ((∃ k, createKernelImpl name = Except.ok k) ↔
      name ∈ drudeReferenceRegisteredNames) ∧
    (name ∉ drudeReferenceRegisteredNames →
      createKernelImpl name =
        Except.error ("Tried to create kernel with illegal kernel name " ++ name)) := by
  unfold createKernelImpl drudeReferenceRegisteredNames
  by_cases h1 : name = calcDrudeForceKernelName
  · rw [if_pos h1]
    exact ⟨iff_of_true ⟨_, rfl⟩ (by simp [h1]), fun hn => absurd (by simp [h1]) hn⟩
  · rw [if_neg h1]
    by_cases h2 : name = integrateDrudeLangevinStepKernelName
    · rw [if_pos h2]
      exact ⟨iff_of_true ⟨_, rfl⟩ (by simp [h2]), fun hn => absurd (by simp [h2]) hn⟩
    · rw [if_neg h2]
      constructor
      · constructor
        · rintro ⟨k, hk⟩
          cases hk
        · intro hmem
          simp only [List.mem_cons, List.mem_singleton, List.not_mem_nil,
            or_false] at hmem
          rcases hmem with h | h
          · exact absurd h h1
          · exact absurd h h2
      · intro _
        rfl

/-- Splitting a `runUpdates` run. -/
theorem runUpdates_chain (owner : BarostatOwner) (env : Env) (fuel : ℕ)
    {m n t : ℕ} {x y z : Context × KernelState × BarostatState}
    (hmn : m + n = t) (h1 : runUpdates owner env fuel m x = some y)
    (h2 : runUpdates owner env fuel n y = some z) :
    runUpdates owner env fuel t x = some z := by
  subst hmn
  induction m generalizing x with
  | zero =>
    rw [Nat.zero_add]
    simp only [runUpdates, Option.some.injEq] at h1
    rwa [h1]
  | succ m ih =>
    rw [Nat.succ_add]
    obtain ⟨ctx, ks, s⟩ := x
    simp only [runUpdates] at h1 ⊢
    cases hu : updateContextState owner env fuel ctx ks s with
    | none =>
      rw [hu] at h1
      cases h1
    | some r =>
      rw [hu] at h1
      exact ih h1

/-- Splitting a `runUpdatesChecked` run. -/
theorem runUpdatesChecked_chain (owner : BarostatOwner) (env : Env) (fuel : ℕ)
    {m n t : ℕ} {ctx : Context} {ks : KernelState} {s : BarostatState}
    {b : Bool} {ctx1 : Context} {ks1 : KernelState} {s1 : BarostatState}
    {b1 : Bool} {out : Context × KernelState × BarostatState × Bool}
    (h1 : runUpdatesChecked owner env fuel m ctx ks s b = some (ctx1, ks1, s1, b1))
    (h2 : runUpdatesChecked owner env fuel n ctx1 ks1 s1 b1 = some out)
    (hmn : m + n = t) :
    runUpdatesChecked owner env fuel t ctx ks s b = some out := by
  subst hmn
  induction m generalizing ctx ks s b with
  | zero =>
    rw [Nat.zero_add]
    simp only [runUpdatesChecked, Option.some.injEq, Prod.mk.injEq] at h1
    obtain ⟨rfl, rfl, rfl, rfl⟩ := h1
    exact h2
  | succ m ih =>
    rw [Nat.succ_add]
    simp only [runUpdatesChecked] at h1 ⊢
    cases hu : updateContextState owner env fuel ctx ks s with
    | none =>
      rw [hu] at h1
      cases h1
    | some r =>
      rw [hu] at h1
      exact ih h1

/-- C6 counterexample: with control interval 0 the call DOES mutate the
step counter — it goes from 0 to 1 — refuting the claim that repeated
update calls leave the step counter untouched. -/
theorem mcmb_C6_counterexample :
    c6Owner.frequency = 0 ∧ (initState cexCtx).step = 0 ∧
    (updateContextState c6Owner c3Env 3 cexCtx ⟨[]⟩ (initState cexCtx)).map
      (fun r => r.state.step) = some 1 := by
  refine ⟨rfl, rfl, ?_⟩
  norm_num [updateContextState, c6Owner, initState]

/-- C6 witness: the amended no-trial description at a concrete input. -/
theorem mcmb_C6_frequency_zero_witness :
    c6Owner.frequency = 0 ∧
    updateContextState c6Owner c3Env 3 cexCtx ⟨[]⟩ (initState cexCtx) =
      some { ctx := cexCtx, ks := ⟨[]⟩,
             state := { initState cexCtx with step := (initState cexCtx).step + 1 },
             calls := [], info := none } :=
  ⟨rfl, mcmb_C6_frequency_zero c6Owner c3Env 3 cexCtx ⟨[]⟩ (initState cexCtx) rfl⟩

/-- C8 counterexample: with a non-free normal axis and the constant
stream 9/10, every draw falls in the axis-2 branch and is re-drawn, so
the axis-selection loop never terminates — the loop does NOT terminate
for every input random stream. -/
theorem mcmb_C8_counterexample :
    c8Owner.zMode ≠ ZMode.ZFree ∧ ¬axisLoopTerminates c8Owner c8Stream 0 := by
  constructor
  · intro h
    cases h
  · rintro ⟨n, -, hv⟩
    rw [axisOfDraw_isSome_iff c8Owner (c8Stream n) (fun h => by cases h)] at hv
    norm_num [c8Stream] at hv

/-- C8 witness: with a free normal axis the loop succeeds on its first
draw. -/
theorem mcmb_C8_axis_selection_loop_witness :
    cexOwner.zMode = ZMode.ZFree ∧ 0 < 1 ∧
    (selectAxis cexOwner c8Stream 1 0).isSome :=
  ⟨rfl, Nat.one_pos,
    mcmb_C8_axis_selection_loop.1 cexOwner c8Stream 1 0 rfl Nat.one_pos⟩

/-- C7 witness: the invariant holds after `initialize` on the concrete
positive-volume box. -/
theorem mcmb_C7_invariant_witness :
    0 < cexCtx.volume ∧ BarostatInvariant (initState cexCtx) :=
  ⟨by norm_num [cexCtx, Context.volume],
    mcmb_C7_invariant.1 cexCtx (by norm_num [cexCtx, Context.volume])⟩

/-- C9 witness: an unregistered name yields the illegal-kernel-name
error, and a registered name yields a kernel. -/
theorem drude_C9_createKernelImpl_witness :
    "bogus" ∉ drudeReferenceRegisteredNames ∧
    createKernelImpl "bogus" =
      Except.error ("Tried to create kernel with illegal kernel name " ++ "bogus") ∧
    (∃ k, createKernelImpl calcDrudeForceKernelName = Except.ok k) := by
  have h : "bogus" ∉ drudeReferenceRegisteredNames := by
    simp [drudeReferenceRegisteredNames, calcDrudeForceKernelName,
      integrateDrudeLangevinStepKernelName]
  exact ⟨h, (drude_C9_createKernelImpl "bogus").2 h,
    (drude_C9_createKernelImpl calcDrudeForceKernelName).1.mpr
      (by simp [drudeReferenceRegisteredNames])⟩

theorem iso_eq_iso_iff : (XYMode.XYIsotropic = XYMode.XYIsotropic) = True := by
  simp

theorem zFixed_ne_cv_iff : (ZMode.ZFixed = ZMode.ConstantVolume) = False := by
  simp

theorem zFixed_ne_zFree_iff : (ZMode.ZFixed = ZMode.ZFree) = False := by
  simp

theorem fin00_iff : (((0 : Fin 3)) = 0) = True := eq_true rfl

theorem fin01_iff : (((0 : Fin 3)) = 1) = False := eq_false (by decide)

theorem fin10_iff : (((1 : Fin 3)) = 0) = False := eq_false (by decide)

theorem fin11_iff : (((1 : Fin 3)) = 1) = True := eq_true rfl

theorem fin20_iff : (((2 : Fin 3)) = 0) = False := eq_false (by decide)

theorem fin21_iff : (((2 : Fin 3)) = 1) = False := eq_false (by decide)

set_option maxRecDepth 100000 in
/-- C1 witness: a concrete accepted trial with weight 0. -/
theorem mcmb_C1_metropolis_acceptance_witness :
    (updateContextState w1Owner w1Env 3 w1Ctx ⟨[]⟩ (initState w1Ctx) =
      some w1Res) ∧ w1Res.info = some w1ResInfo ∧
    ((w1ResInfo.w ≤ 0 →
        w1ResInfo.accepted = true ∧ w1ResInfo.acceptDraw = none) ∧
     (0 < w1ResInfo.w → ∃ u, w1ResInfo.acceptDraw = some u ∧
       (w1ResInfo.accepted = true ↔
         u ≤ w1Env.math.exp (-w1ResInfo.w / (BOLTZ * w1Owner.temperature))))) := by
  have h1 : updateContextState w1Owner w1Env 3 w1Ctx ⟨[]⟩ (initState w1Ctx) =
      some w1Res := by
    norm_num [updateContextState, doTrial, trialTail, trialOutcome, finishTrial,
      tuneStep, selectAxis, axisOfDraw, scaleCoordinates, restoreCoordinates,
      initState, Context.volume, Vec3.get, Vec3.setAt, Vec3.smul, Axes.get,
      Axes.setAt, BOLTZ, RGAS, BOLTZMANN, AVOGADRO, cexMath, cexExp, cexLog, fin00_iff, fin01_iff, fin10_iff,
      fin11_iff, fin20_iff, fin21_iff,
      xyAniso_eq_iso_iff, zFixed_ne_cv_iff, zFixed_ne_zFree_iff,
      w1Owner, w1Env, w1Ctx, w1Res, w1ResCtx, w1ResKs, w1ResState, w1ResInfo]
  exact ⟨h1, rfl, mcmb_C1_metropolis_acceptance w1Owner w1Env 3 w1Ctx ⟨[]⟩
    (initState w1Ctx) w1Res w1ResInfo h1 rfl⟩

set_option maxRecDepth 100000 in
/-- C2 witness: a concrete rejected trial. -/
theorem mcmb_C2_rejection_rolls_back_witness :
    (updateContextState cexOwner w2Env 3 cexCtx ⟨[]⟩ (initState cexCtx) =
      some w2Res) ∧ w2Res.info = some w2ResInfo ∧
    w2ResInfo.accepted = false ∧
    (w2Res.ctx.box0 = cexCtx.box0 ∧ w2Res.ctx.box1 = cexCtx.box1 ∧
     w2Res.ctx.box2 = cexCtx.box2 ∧ w2Res.ctx.positions = cexCtx.positions ∧
     KernelCall.restoreCoordinatesCall ∈ w2Res.calls ∧
     w2ResInfo.tuningVolume = w2ResInfo.newVolume) := by
  have h1 : updateContextState cexOwner w2Env 3 cexCtx ⟨[]⟩ (initState cexCtx) =
      some w2Res := by
    norm_num [updateContextState, doTrial, trialTail, trialOutcome, finishTrial,
      tuneStep, selectAxis, axisOfDraw, scaleCoordinates, restoreCoordinates,
      initState, Context.volume, Vec3.get, Vec3.setAt, Vec3.smul, Axes.get,
      Axes.setAt, BOLTZ, RGAS, BOLTZMANN, AVOGADRO, cexMath, cexExp, cexLog, fin00_iff, fin01_iff, fin10_iff,
      fin11_iff, fin20_iff, fin21_iff,
      xyAniso_eq_iso_iff, zFree_eq_cv_iff, zFree_eq_zFree_iff,
      cexOwner, w2Env, w2Stream, cexCtx, w2Res, w2ResCtx, w2ResKs, w2ResState,
      w2ResInfo]
  exact ⟨h1, rfl, rfl, mcmb_C2_rejection_rolls_back cexOwner w2Env 3 cexCtx
    ⟨[]⟩ (initState cexCtx) w2Res w2ResInfo h1 rfl rfl⟩

set_option maxRecDepth 100000 in
/-- C4 witness: the tenth all-accepted attempt triggers the growth
branch. -/
theorem mcmb_C4_tuning_adjustment_witness :
    (updateContextState w1Owner w1Env 3 w1Ctx ⟨[]⟩ w4S = some w4Res) ∧
    w4Res.info = some w4ResInfo ∧
    10 ≤ w4S.numAttempted.get w4ResInfo.axis + 1 ∧
    (0.75 * ((w4S.numAttempted.get w4ResInfo.axis + 1 : ℕ) : ℚ) <
      ((w4S.numAccepted.get w4ResInfo.axis +
        (if w4ResInfo.accepted then 1 else 0) : ℕ) : ℚ)) ∧
    (w4Res.state.volumeScale.get w4ResInfo.axis =
      min (w4S.volumeScale.get w4ResInfo.axis * 1.1)
        (w4ResInfo.tuningVolume * 0.3) ∧
     w4Res.state.numAttempted.get w4ResInfo.axis = 0 ∧
     w4Res.state.numAccepted.get w4ResInfo.axis = 0) := by
  have h1 : updateContextState w1Owner w1Env 3 w1Ctx ⟨[]⟩ w4S = some w4Res := by
    norm_num [updateContextState, doTrial, trialTail, trialOutcome, finishTrial,
      tuneStep, selectAxis, axisOfDraw, scaleCoordinates, restoreCoordinates,
      Context.volume, Vec3.get, Vec3.setAt, Vec3.smul, Axes.get,
      Axes.setAt, BOLTZ, RGAS, BOLTZMANN, AVOGADRO, cexMath, cexExp, cexLog, fin00_iff, fin01_iff, fin10_iff,
      fin11_iff, fin20_iff, fin21_iff,
      xyAniso_eq_iso_iff, zFixed_ne_cv_iff, zFixed_ne_zFree_iff,
      w1Owner, w1Env, w1Ctx, w4S, w4Res, w4ResCtx, w4ResKs, w4ResState,
      w4ResInfo]
  have hchk : 10 ≤ w4S.numAttempted.get w4ResInfo.axis + 1 := by
    norm_num [w4S, w4ResInfo, Axes.get]
  have hratio : 0.75 * ((w4S.numAttempted.get w4ResInfo.axis + 1 : ℕ) : ℚ) <
      ((w4S.numAccepted.get w4ResInfo.axis +
        (if w4ResInfo.accepted then 1 else 0) : ℕ) : ℚ) := by
    norm_num [w4S, w4ResInfo, Axes.get]
  exact ⟨h1, rfl, hchk, hratio,
    (mcmb_C4_tuning_adjustment w1Owner w1Env 3 w1Ctx ⟨[]⟩ w4S w4Res w4ResInfo
      h1 rfl hchk).2.1 hratio⟩

set_option maxRecDepth 100000 in
/-- C5 witness: a concrete ConstantVolume trial. -/
theorem mcmb_C5_constant_volume_witness :
    w5Owner.zMode = ZMode.ConstantVolume ∧
    (updateContextState w5Owner w1Env 3 cexCtx ⟨[]⟩ (initState cexCtx) =
      some w5Res) ∧ w5Res.info = some w5ResInfo ∧
    (w5ResInfo.lengthScale.z =
        1 / (w5ResInfo.lengthScale.x * w5ResInfo.lengthScale.y) ∧
     w5ResInfo.deltaVolume = 0 ∧ w5ResInfo.newVolume = cexCtx.volume ∧
     (w5ResInfo.lengthScale.x * w5ResInfo.lengthScale.y ≠ 0 →
       w5Res.ctx.volume = cexCtx.volume)) := by
  have h1 : updateContextState w5Owner w1Env 3 cexCtx ⟨[]⟩ (initState cexCtx) =
      some w5Res := by
    norm_num [updateContextState, doTrial, trialTail, trialOutcome, finishTrial,
      tuneStep, selectAxis, axisOfDraw, scaleCoordinates, restoreCoordinates,
      initState, Context.volume, Vec3.get, Vec3.setAt, Vec3.smul, Axes.get,
      Axes.setAt, BOLTZ, RGAS, BOLTZMANN, AVOGADRO, cexMath, cexExp, cexLog, fin00_iff, fin01_iff, fin10_iff,
      fin11_iff, fin20_iff, fin21_iff,
      xyAniso_eq_iso_iff, cv_eq_cv_iff, w5Owner, w1Env, cexCtx, w5Res,
      w5ResCtx, w5ResKs, w5ResState, w5ResInfo]
  exact ⟨rfl, h1, rfl, mcmb_C5_constant_volume w5Owner w1Env 3 cexCtx ⟨[]⟩
    (initState cexCtx) w5Res w5ResInfo rfl h1 rfl⟩

set_option maxRecDepth 100000 in
/-- C10 witness: one isotropic call leaves the axis-1 entries at their
initialize-time values. -/
theorem mcmb_C10_isotropic_axis1_frozen_witness :
    w10Owner.xyMode = XYMode.XYIsotropic ∧
    (runUpdatesEnvs w10Owner 3 [w10Env] (cexCtx, ⟨[]⟩, initState cexCtx) =
      some (w10Ctx, w10Ks, w10S)) ∧
    (w10S.numAttempted.get 1 = 0 ∧ w10S.numAccepted.get 1 = 0 ∧
     w10S.volumeScale.get 1 = 0.01 * cexCtx.volume) := by
  have h1 : runUpdatesEnvs w10Owner 3 [w10Env] (cexCtx, ⟨[]⟩, initState cexCtx) =
      some (w10Ctx, w10Ks, w10S) := by
    norm_num [runUpdatesEnvs, updateContextState, doTrial, trialTail,
      trialOutcome, finishTrial, tuneStep, selectAxis, axisOfDraw,
      scaleCoordinates, restoreCoordinates, initState, Context.volume,
      Vec3.get, Vec3.setAt, Vec3.smul, Axes.get, Axes.setAt, BOLTZ, RGAS,
      BOLTZMANN, AVOGADRO, cexMath, cexExp, cexLog, fin00_iff, fin01_iff, fin10_iff,
      fin11_iff, fin20_iff, fin21_iff, iso_eq_iso_iff,
      zFixed_ne_cv_iff, zFixed_ne_zFree_iff, w10Owner, w10Env, cexCtx,
      w10Ctx, w10Ks, w10S]
  exact ⟨rfl, h1, mcmb_C10_isotropic_axis1_frozen w10Owner rfl 3 [w10Env]
    cexCtx ⟨[]⟩ w10Ctx w10Ks w10S h1⟩

set_option maxRecDepth 400000 in
set_option maxHeartbeats 1000000 in
/-- C3 counterexample: starting from `initialize` (3 accepted then only
rejected trials on axis 0), the tuning adjustment fires at attempt 13 —
not a multiple of 10 — shrinking the amplitude from 1 to 10/11 and
resetting the counters, refuting the claim that the check triggers only
when the attempted count crosses a multiple of 10. -/
theorem mcmb_C3_counterexample :
    (runUpdates cexOwner c3Env 3 12 (cexCtx, ⟨[]⟩, initState cexCtx) =
      some (c3Ctx12, c3Ks12, c3S12)) ∧
    (runUpdates cexOwner c3Env 3 13 (cexCtx, ⟨[]⟩, initState cexCtx) =
      some (c3Ctx12, c3Ks12, c3S13)) ∧
    c3S12.numAttempted.get 0 = 12 ∧ c3S12.volumeScale.get 0 = 1 ∧
    c3S13.volumeScale.get 0 = 10 / 11 ∧ c3S13.numAttempted.get 0 = 0 ∧
    c3S13.numAccepted.get 0 = 0 ∧ (12 + 1) % 10 ≠ 0 := by
  have h12 : runUpdates cexOwner c3Env 3 12 (cexCtx, ⟨[]⟩, initState cexCtx) =
      some (c3Ctx12, c3Ks12, c3S12) := by
    norm_num [runUpdates, runUpdatesChecked, updateContextState, doTrial, trialTail,
      trialOutcome, finishTrial, tuneStep, selectAxis, axisOfDraw,
      scaleCoordinates, restoreCoordinates, initState, Context.volume,
      Vec3.get, Vec3.setAt, Vec3.smul, Axes.get, Axes.setAt, BOLTZ, RGAS,
      BOLTZMANN, AVOGADRO, cexMath, cexExp, cexLog, fin00_iff, fin01_iff, fin10_iff,
      fin11_iff, fin20_iff, fin21_iff, xyAniso_eq_iso_iff,
      zFree_eq_cv_iff, zFree_eq_zFree_iff, cexOwner, cexCtx, c3Env, c3Stream, c3Ctx12, c3Ks12, c3S12]
  have h13 : runUpdates cexOwner c3Env 3 1 (c3Ctx12, c3Ks12, c3S12) =
      some (c3Ctx12, c3Ks12, c3S13) := by
    norm_num [runUpdates, runUpdatesChecked, updateContextState, doTrial, trialTail,
      trialOutcome, finishTrial, tuneStep, selectAxis, axisOfDraw,
      scaleCoordinates, restoreCoordinates, initState, Context.volume,
      Vec3.get, Vec3.setAt, Vec3.smul, Axes.get, Axes.setAt, BOLTZ, RGAS,
      BOLTZMANN, AVOGADRO, cexMath, cexExp, cexLog, fin00_iff, fin01_iff, fin10_iff,
      fin11_iff, fin20_iff, fin21_iff, xyAniso_eq_iso_iff,
      zFree_eq_cv_iff, zFree_eq_zFree_iff, cexOwner, cexCtx, c3Env, c3Stream, c3Ctx12, c3Ks12, c3S12, c3S13]
  exact ⟨h12, runUpdates_chain cexOwner c3Env 3 (by norm_num) h12 h13,
    rfl, rfl, rfl, rfl, rfl, by norm_num⟩


set_option maxRecDepth 400000 in
set_option maxHeartbeats 1000000 in
/-- Leg 1 of the C7 counterexample trace (calls 1-21). -/
theorem c7Leg1 :
    runUpdatesChecked cexOwner c7Env 3 21 cexCtx ⟨[]⟩ (initState cexCtx) true =
      some (c7Ctx21, c7Ks21, c7S21, true) := by
  norm_num [runUpdates, runUpdatesChecked, updateContextState, doTrial, trialTail,
      trialOutcome, finishTrial, tuneStep, selectAxis, axisOfDraw,
      scaleCoordinates, restoreCoordinates, initState, Context.volume,
      Vec3.get, Vec3.setAt, Vec3.smul, Axes.get, Axes.setAt, BOLTZ, RGAS,
      BOLTZMANN, AVOGADRO, cexMath, cexExp, cexLog, fin00_iff, fin01_iff, fin10_iff,
      fin11_iff, fin20_iff, fin21_iff, xyAniso_eq_iso_iff,
      zFree_eq_cv_iff, zFree_eq_zFree_iff, cexOwner, cexCtx, c7Env, c7Stream,
    c7Ctx21, c7Ks21, c7S21]


set_option maxRecDepth 400000 in
set_option maxHeartbeats 1000000 in
/-- Leg 2 of the C7 counterexample trace (calls 22-42). -/
theorem c7Leg2 :
    runUpdatesChecked cexOwner c7Env 3 21 c7Ctx21 c7Ks21 c7S21 true =
      some (c7Ctx42, c7Ks42, c7S42, true) := by
  norm_num [runUpdates, runUpdatesChecked, updateContextState, doTrial, trialTail,
      trialOutcome, finishTrial, tuneStep, selectAxis, axisOfDraw,
      scaleCoordinates, restoreCoordinates, initState, Context.volume,
      Vec3.get, Vec3.setAt, Vec3.smul, Axes.get, Axes.setAt, BOLTZ, RGAS,
      BOLTZMANN, AVOGADRO, cexMath, cexExp, cexLog, fin00_iff, fin01_iff, fin10_iff,
      fin11_iff, fin20_iff, fin21_iff, xyAniso_eq_iso_iff,
      zFree_eq_cv_iff, zFree_eq_zFree_iff, cexOwner, cexCtx, c7Env, c7Stream,
    c7Ctx42, c7Ks42, c7S42, c7Ctx21, c7Ks21, c7S21]


set_option maxRecDepth 400000 in
set_option maxHeartbeats 1000000 in
/-- Leg 3 of the C7 counterexample trace (calls 43-63). -/
theorem c7Leg3 :
    runUpdatesChecked cexOwner c7Env 3 21 c7Ctx42 c7Ks42 c7S42 true =
      some (c7Ctx63, c7Ks63, c7S63, true) := by
  norm_num [runUpdates, runUpdatesChecked, updateContextState, doTrial, trialTail,
      trialOutcome, finishTrial, tuneStep, selectAxis, axisOfDraw,
      scaleCoordinates, restoreCoordinates, initState, Context.volume,
      Vec3.get, Vec3.setAt, Vec3.smul, Axes.get, Axes.setAt, BOLTZ, RGAS,
      BOLTZMANN, AVOGADRO, cexMath, cexExp, cexLog, fin00_iff, fin01_iff, fin10_iff,
      fin11_iff, fin20_iff, fin21_iff, xyAniso_eq_iso_iff,
      zFree_eq_cv_iff, zFree_eq_zFree_iff, cexOwner, cexCtx, c7Env, c7Stream,
    c7Ctx63, c7Ks63, c7S63, c7Ctx42, c7Ks42, c7S42]


set_option maxRecDepth 400000 in
set_option maxHeartbeats 1000000 in
/-- Leg 4 of the C7 counterexample trace (calls 64-84). -/
theorem c7Leg4 :
    runUpdatesChecked cexOwner c7Env 3 21 c7Ctx63 c7Ks63 c7S63 true =
      some (c7Ctx84, c7Ks84, c7S84, true) := by
  norm_num [runUpdates, runUpdatesChecked, updateContextState, doTrial, trialTail,
      trialOutcome, finishTrial, tuneStep, selectAxis, axisOfDraw,
      scaleCoordinates, restoreCoordinates, initState, Context.volume,
      Vec3.get, Vec3.setAt, Vec3.smul, Axes.get, Axes.setAt, BOLTZ, RGAS,
      BOLTZMANN, AVOGADRO, cexMath, cexExp, cexLog, fin00_iff, fin01_iff, fin10_iff,
      fin11_iff, fin20_iff, fin21_iff, xyAniso_eq_iso_iff,
      zFree_eq_cv_iff, zFree_eq_zFree_iff, cexOwner, cexCtx, c7Env, c7Stream,
    c7Ctx84, c7Ks84, c7S84, c7Ctx63, c7Ks63, c7S63]


set_option maxRecDepth 400000 in
set_option maxHeartbeats 1000000 in
/-- Leg 5 of the C7 counterexample trace (calls 85-105). -/
theorem c7Leg5 :
    runUpdatesChecked cexOwner c7Env 3 21 c7Ctx84 c7Ks84 c7S84 true =
      some (c7Ctx105, c7Ks105, c7S105, true) := by
  norm_num [runUpdates, runUpdatesChecked, updateContextState, doTrial, trialTail,
      trialOutcome, finishTrial, tuneStep, selectAxis, axisOfDraw,
      scaleCoordinates, restoreCoordinates, initState, Context.volume,
      Vec3.get, Vec3.setAt, Vec3.smul, Axes.get, Axes.setAt, BOLTZ, RGAS,
      BOLTZMANN, AVOGADRO, cexMath, cexExp, cexLog, fin00_iff, fin01_iff, fin10_iff,
      fin11_iff, fin20_iff, fin21_iff, xyAniso_eq_iso_iff,
      zFree_eq_cv_iff, zFree_eq_zFree_iff, cexOwner, cexCtx, c7Env, c7Stream,
    c7Ctx105, c7Ks105, c7S105, c7Ctx84, c7Ks84, c7S84]


set_option maxRecDepth 400000 in
set_option maxHeartbeats 1000000 in
/-- Leg 6 of the C7 counterexample trace (calls 106-126). -/
theorem c7Leg6 :
    runUpdatesChecked cexOwner c7Env 3 21 c7Ctx105 c7Ks105 c7S105 true =
      some (c7Ctx126, c7Ks126, c7S126, true) := by
  norm_num [runUpdates, runUpdatesChecked, updateContextState, doTrial, trialTail,
      trialOutcome, finishTrial, tuneStep, selectAxis, axisOfDraw,
      scaleCoordinates, restoreCoordinates, initState, Context.volume,
      Vec3.get, Vec3.setAt, Vec3.smul, Axes.get, Axes.setAt, BOLTZ, RGAS,
      BOLTZMANN, AVOGADRO, cexMath, cexExp, cexLog, fin00_iff, fin01_iff, fin10_iff,
      fin11_iff, fin20_iff, fin21_iff, xyAniso_eq_iso_iff,
      zFree_eq_cv_iff, zFree_eq_zFree_iff, cexOwner, cexCtx, c7Env, c7Stream,
    c7Ctx126, c7Ks126, c7S126, c7Ctx105, c7Ks105, c7S105]


set_option maxRecDepth 400000 in
set_option maxHeartbeats 1000000 in
/-- Leg 7 of the C7 counterexample trace (calls 127-147). -/
theorem c7Leg7 :
    runUpdatesChecked cexOwner c7Env 3 21 c7Ctx126 c7Ks126 c7S126 true =
      some (c7Ctx147, c7Ks147, c7S147, true) := by
  norm_num [runUpdates, runUpdatesChecked, updateContextState, doTrial, trialTail,
      trialOutcome, finishTrial, tuneStep, selectAxis, axisOfDraw,
      scaleCoordinates, restoreCoordinates, initState, Context.volume,
      Vec3.get, Vec3.setAt, Vec3.smul, Axes.get, Axes.setAt, BOLTZ, RGAS,
      BOLTZMANN, AVOGADRO, cexMath, cexExp, cexLog, fin00_iff, fin01_iff, fin10_iff,
      fin11_iff, fin20_iff, fin21_iff, xyAniso_eq_iso_iff,
      zFree_eq_cv_iff, zFree_eq_zFree_iff, cexOwner, cexCtx, c7Env, c7Stream,
    c7Ctx147, c7Ks147, c7S147, c7Ctx126, c7Ks126, c7S126]


set_option maxRecDepth 400000 in
set_option maxHeartbeats 1000000 in
/-- Leg 8 of the C7 counterexample trace (calls 148-159). -/
theorem c7Leg8 :
    runUpdatesChecked cexOwner c7Env 3 12 c7Ctx147 c7Ks147 c7S147 true =
      some (c7Ctx159, c7Ks159, c7S159, true) := by
  norm_num [runUpdates, runUpdatesChecked, updateContextState, doTrial, trialTail,
      trialOutcome, finishTrial, tuneStep, selectAxis, axisOfDraw,
      scaleCoordinates, restoreCoordinates, initState, Context.volume,
      Vec3.get, Vec3.setAt, Vec3.smul, Axes.get, Axes.setAt, BOLTZ, RGAS,
      BOLTZMANN, AVOGADRO, cexMath, cexExp, cexLog, fin00_iff, fin01_iff, fin10_iff,
      fin11_iff, fin20_iff, fin21_iff, xyAniso_eq_iso_iff,
      zFree_eq_cv_iff, zFree_eq_zFree_iff, cexOwner, cexCtx, c7Env, c7Stream,
    c7Ctx159, c7Ks159, c7S159, c7Ctx147, c7Ks147, c7S147]


/-- Tail of the C7 run from call 148 on. -/
theorem c7From147 :
    runUpdatesChecked cexOwner c7Env 3 12 c7Ctx147 c7Ks147 c7S147 true =
      some (c7Ctx159, c7Ks159, c7S159, true) :=
  c7Leg8

/-- Tail of the C7 run from call 127 on. -/
theorem c7From126 :
    runUpdatesChecked cexOwner c7Env 3 33 c7Ctx126 c7Ks126 c7S126 true =
      some (c7Ctx159, c7Ks159, c7S159, true) :=
  runUpdatesChecked_chain cexOwner c7Env 3 c7Leg7 c7From147
    (by norm_num)

/-- Tail of the C7 run from call 106 on. -/
theorem c7From105 :
    runUpdatesChecked cexOwner c7Env 3 54 c7Ctx105 c7Ks105 c7S105 true =
      some (c7Ctx159, c7Ks159, c7S159, true) :=
  runUpdatesChecked_chain cexOwner c7Env 3 c7Leg6 c7From126
    (by norm_num)

/-- Tail of the C7 run from call 85 on. -/
theorem c7From84 :
    runUpdatesChecked cexOwner c7Env 3 75 c7Ctx84 c7Ks84 c7S84 true =
      some (c7Ctx159, c7Ks159, c7S159, true) :=
  runUpdatesChecked_chain cexOwner c7Env 3 c7Leg5 c7From105
    (by norm_num)

/-- Tail of the C7 run from call 64 on. -/
theorem c7From63 :
    runUpdatesChecked cexOwner c7Env 3 96 c7Ctx63 c7Ks63 c7S63 true =
      some (c7Ctx159, c7Ks159, c7S159, true) :=
  runUpdatesChecked_chain cexOwner c7Env 3 c7Leg4 c7From84
    (by norm_num)

/-- Tail of the C7 run from call 43 on. -/
theorem c7From42 :
    runUpdatesChecked cexOwner c7Env 3 117 c7Ctx42 c7Ks42 c7S42 true =
      some (c7Ctx159, c7Ks159, c7S159, true) :=
  runUpdatesChecked_chain cexOwner c7Env 3 c7Leg3 c7From63
    (by norm_num)

/-- Tail of the C7 run from call 22 on. -/
theorem c7From21 :
    runUpdatesChecked cexOwner c7Env 3 138 c7Ctx21 c7Ks21 c7S21 true =
      some (c7Ctx159, c7Ks159, c7S159, true) :=
  runUpdatesChecked_chain cexOwner c7Env 3 c7Leg2 c7From42
    (by norm_num)

/-- The full 159-call C7 counterexample run. -/
theorem c7Run159 :
    runUpdatesChecked cexOwner c7Env 3 159 cexCtx ⟨[]⟩ (initState cexCtx)
      true = some (c7Ctx159, c7Ks159, c7S159, true) :=
  runUpdatesChecked_chain cexOwner c7Env 3 c7Leg1 c7From21 (by norm_num)

/-- C7 counterexample: a state reachable from `initialize` through 159
`updateContextState` calls, with the box volume strictly positive after
every call (the Boolean flag verifies this), in which
`volumeScale[2] = 0` — refuting the claim that `volumeScale[i] > 0` holds
at every reachable state whose box volume stayed positive. -/
theorem mcmb_C7_counterexample :
    0 < cexCtx.volume ∧
    (runUpdatesChecked cexOwner c7Env 3 159 cexCtx ⟨[]⟩ (initState cexCtx)
      true = some (c7Ctx159, c7Ks159, c7S159, true)) ∧
    0 < c7Ctx159.volume ∧ c7S159.volumeScale.get 2 = 0 ∧
    c7S159.numAccepted.get 0 ≤ c7S159.numAttempted.get 0 := by
  exact ⟨by norm_num [cexCtx, Context.volume], c7Run159,
    by norm_num [c7Ctx159, Context.volume], rfl, by norm_num [c7S159, Axes.get]⟩

set_option maxRecDepth 100000 in
/-- C3 witness: at the first attempt (attempted count 1 < 10) no
adjustment fires and the counters simply accumulate. -/
theorem mcmb_C3_check_threshold_witness :
    (updateContextState cexOwner w2Env 3 cexCtx ⟨[]⟩ (initState cexCtx) =
      some w2Res) ∧ w2Res.info = some w2ResInfo ∧
    ((w2Res.state.numAttempted.get w2ResInfo.axis = 0 ↔
      (10 ≤ (initState cexCtx).numAttempted.get w2ResInfo.axis + 1 ∧
        ((((initState cexCtx).numAccepted.get w2ResInfo.axis +
            (if w2ResInfo.accepted then 1 else 0) : ℕ) : ℚ) <
            0.25 * (((initState cexCtx).numAttempted.get w2ResInfo.axis + 1 : ℕ) : ℚ) ∨
          0.75 * (((initState cexCtx).numAttempted.get w2ResInfo.axis + 1 : ℕ) : ℚ) <
            (((initState cexCtx).numAccepted.get w2ResInfo.axis +
              (if w2ResInfo.accepted then 1 else 0) : ℕ) : ℚ)))) ∧
     (w2Res.state.numAttempted.get w2ResInfo.axis ≠ 0 →
      w2Res.state.volumeScale.get w2ResInfo.axis =
        (initState cexCtx).volumeScale.get w2ResInfo.axis ∧
      w2Res.state.numAttempted.get w2ResInfo.axis =
        (initState cexCtx).numAttempted.get w2ResInfo.axis + 1 ∧
      w2Res.state.numAccepted.get w2ResInfo.axis =
        (initState cexCtx).numAccepted.get w2ResInfo.axis +
          (if w2ResInfo.accepted then 1 else 0))) := by
  have h1 : updateContextState cexOwner w2Env 3 cexCtx ⟨[]⟩ (initState cexCtx) =
      some w2Res := by
    norm_num [updateContextState, doTrial, trialTail, trialOutcome, finishTrial,
      tuneStep, selectAxis, axisOfDraw, scaleCoordinates, restoreCoordinates,
      initState, Context.volume, Vec3.get, Vec3.setAt, Vec3.smul, Axes.get,
      Axes.setAt, BOLTZ, RGAS, BOLTZMANN, AVOGADRO, cexMath, cexExp, cexLog,
      fin00_iff, fin01_iff, fin10_iff, fin11_iff, fin20_iff, fin21_iff,
      xyAniso_eq_iso_iff, zFree_eq_cv_iff, zFree_eq_zFree_iff,
      cexOwner, w2Env, w2Stream, cexCtx, w2Res, w2ResCtx, w2ResKs, w2ResState,
      w2ResInfo]
  exact ⟨h1, rfl, mcmb_C3_check_threshold cexOwner w2Env 3 cexCtx ⟨[]⟩
    (initState cexCtx) w2Res w2ResInfo h1 rfl⟩
